import Mathlib

/-!
Shallow embedding of the rove-to/near-smart-contracts migration scripts.

The repository is a set of TypeScript command-line scripts that call methods
on NEAR smart contracts through the near-api-js SDK.  We embed the scripts
and the invoker classes as programs in a writer-plus-exception monad over an
abstract world: every outbound SDK operation (connect, account loading,
file read, function call, contract call, account deletion, key-store write)
is recorded as an event in a trace, and the world decides whether each
operation succeeds (returning a JS value) or throws (returning an error
string).  JavaScript values are modelled by the inductive type JsVal, with
truthiness, string coercion and parseInt translated from their JS semantics.
-/

/-- Model of a JavaScript value as it occurs in these scripts: strings,
integers, NaN, booleans, undefined, and structured objects. -/
inductive JsVal : Type
  | str (s : String)
  | num (n : Int)
  | nan
  | bool (b : Bool)
  | undefined
  | obj (fields : List (String × JsVal))

/-- JavaScript truthiness: empty string, 0, NaN, false and undefined are
falsy; every other value (including any object) is truthy. -/
def truthy : JsVal → Bool
  | .str s => !s.isEmpty
  | .num n => n != 0
  | .nan => false
  | .bool b => b
  | .undefined => false
  | .obj _ => true

/-- The JavaScript logical-or on values: returns the left operand when it is
truthy, else the right operand.  This is the exact semantics of the
fallback chains such as argv or env or default used by the scripts. -/
def jsOr (a b : JsVal) : JsVal :=
  if truthy a then a else b

/-- JavaScript string coercion, as applied by parseInt to its argument. -/
def jsToString : JsVal → String
  | .str s => s
  | .num n => toString n
  | .nan => "NaN"
  | .bool b => if b then "true" else "false"
  | .undefined => "undefined"
  | .obj _ => "[object Object]"

/-- Numeric value of one character under a radix, or none. -/
def digitVal (c : Char) : Option Nat :=
  if '0' ≤ c ∧ c ≤ '9' then some (c.toNat - '0'.toNat)
  else if 'a' ≤ c ∧ c ≤ 'z' then some (c.toNat - 'a'.toNat + 10)
  else if 'A' ≤ c ∧ c ≤ 'Z' then some (c.toNat - 'A'.toNat + 10)
  else none

/-- Longest leading run of digits valid under the radix. -/
def takeDigits (radix : Nat) : List Char → List Nat
  | [] => []
  | c :: cs =>
    match digitVal c with
    | some d => if d < radix then d :: takeDigits radix cs else []
    | none => []

/-- Fold a digit list to a natural number under the radix. -/
def digitsToNat (radix : Nat) (ds : List Nat) : Nat :=
  ds.foldl (fun acc d => acc * radix + d) 0

/-- Whitespace characters trimmed by parseInt. -/
def isJsSpace (c : Char) : Bool :=
  c = ' ' || c = '\t' || c = '\n' || c = '\r'

/-- Model of the JavaScript parseInt applied to a value, with an optional
radix argument.  Leading whitespace is skipped, then an optional sign; with
no radix (or radix 16) a leading 0x or 0X selects hexadecimal, otherwise
base 10 is used; the longest valid digit run is converted and an empty run
yields NaN.  Translated from the ECMAScript parseInt specification as used
by the scripts. -/
def parseIntJs (radix : Option Nat) (v : JsVal) : JsVal :=
  let cs := (jsToString v).toList.dropWhile isJsSpace
  let signNeg := cs.head? = some '-'
  let cs := if cs.head? = some '-' ∨ cs.head? = some '+' then cs.tail else cs
  let r := radix.getD 0
  let useHex :=
    (r = 0 ∨ r = 16) ∧
      (cs.take 2 = ['0', 'x'] ∨ cs.take 2 = ['0', 'X'])
  let cs := if useHex then cs.drop 2 else cs
  let r := if useHex then 16 else if r = 0 then 10 else r
  let ds := takeDigits r cs
  if ds.isEmpty then JsVal.nan
  else
    let n : Int := Int.ofNat (digitsToNat r ds)
    JsVal.num (if signNeg then -n else n)

/-- Model of near-api-js utils.format.parseNearAmount: an SDK-pure
conversion from a NEAR amount to a yoctoNEAR string.  Its arithmetic is
irrelevant to every claim, so it is modelled as an injective symbolic tag
on its argument. -/
def parseNearAmount (v : JsVal) : JsVal :=
  .obj [("parseNearAmount", v)]

/-- Model of KeyPair.publicKey.toString() applied to a generated keypair
value: an injective symbolic tag. -/
def publicKeyOf (kp : JsVal) : JsVal :=
  .obj [("publicKey", kp)]

/-- One network profile record from near.config.js. -/
structure Config : Type where
  networkId : String
  nodeUrl : String
  walletUrl : String
  helperUrl : Option String
  explorerUrl : Option String
  keyStore : Option String

/-- The testnet profile from near.config.js. -/
def testnetConfig : Config :=
  { networkId := "testnet"
    nodeUrl := "https://rpc.testnet.near.org"
    walletUrl := "https://wallet.testnet.near.org"
    helperUrl := some "https://helper.testnet.near.org"
    explorerUrl := some "https://explorer.testnet.near.org"
    keyStore := some "~/.near-credentials/testnet/test-1.testnet.json" }

/-- The mainnet profile from near.config.js. -/
def mainnetConfig : Config :=
  { networkId := "mainnet"
    nodeUrl := "https://rpc.mainnet.near.org"
    walletUrl := "https://wallet.mainnet.near.org"
    helperUrl := some "https://helper.mainnet.near.org"
    explorerUrl := some "https://explorer.mainnet.near.org"
    keyStore := none }

/-- The betanet profile from near.config.js. -/
def betanetConfig : Config :=
  { networkId := "betanet"
    nodeUrl := "https://rpc.betanet.near.org"
    walletUrl := "https://wallet.betanet.near.org"
    helperUrl := some "https://helper.betanet.near.org"
    explorerUrl := some "https://explorer.betanet.near.org"
    keyStore := none }

/-- The localnet profile from near.config.js. -/
def localnetConfig : Config :=
  { networkId := "local"
    nodeUrl := "http://localhost:3030"
    walletUrl := "http://localhost:4000/wallet"
    helperUrl := none
    explorerUrl := none
    keyStore := none }

/-- The static network-to-profile mapping, translated from near.config.js. -/
def nearConfig : String → Option Config
  | "testnet" => some testnetConfig
  | "mainnet" => some mainnetConfig
  | "betanet" => some betanetConfig
  | "localnet" => some localnetConfig
  | _ => none

/-- Lookup of nearConfig at a JS value index, as done by the class
constructors via nearConfig of this.network: a non-string index (for
example an unset NETWORK variable) finds no entry. -/
def nearConfigAt : JsVal → Option Config
  | .str s => nearConfig s
  | _ => none

/-- JavaScript loose inequality of a value against a string literal: a
string compares by content, any non-string value (notably an unset
environment variable, undefined) is unequal to the literal. -/
def jsNeString (v : JsVal) (s : String) : Bool :=
  match v with
  | .str t => t != s
  | _ => true

/-- JavaScript equality of a value against the empty string literal. -/
def jsIsEmptyString (v : JsVal) : Bool :=
  match v with
  | .str t => t.isEmpty
  | _ => false

/-- One outbound or observable event of a script run.  Network and
key-store operations carry the arguments the source passes to the SDK;
log records a console.log. -/
inductive Ev : Type
  | connect (cfg : Config)
  | loadAccount (id : JsVal)
  | readFile (path : JsVal)
  | genKeyPair
  | functionCall (contractId : JsVal) (methodName : String)
      (args : JsVal) (gas : JsVal) (attachedDeposit : JsVal)
  | deployContract (accountId : JsVal) (wasm : JsVal)
  | contractCall (signer : JsVal) (contractId : JsVal)
      (viewMethods : List String) (changeMethods : List String)
      (method : String) (args : JsVal) (gas : JsVal) (deposit : JsVal)
  | deleteAccountCall (target : JsVal) (beneficiary : JsVal)
  | setKey (networkId : String) (accountId : JsVal) (keyPair : JsVal)
  | removeKey (networkId : String) (accountId : JsVal)
  | now
  | log (msg : JsVal)

/-- The external world: for each event it either returns a JS value (the
operation resolved) or an error string (the operation threw). -/
def W : Type := Ev → Except String JsVal

/-- Program monad: given a world, a program produces the ordered trace of
events it performed and either a result or an uncaught exception. -/
def M (α : Type) : Type := W → List Ev × Except String α

/-- Monadic return: no events, a value. -/
def M.pure {α : Type} (a : α) : M α := fun _ => ([], .ok a)

/-- Monadic bind: run the first program; on success append the trace of the
continuation, on an uncaught exception stop. -/
def M.bind {α β : Type} (x : M α) (f : α → M β) : M β := fun w =>
  match x w with
  | (t, .ok a) => (t ++ (f a w).1, (f a w).2)
  | (t, .error e) => (t, .error e)

instance : Monad M where
  pure := M.pure
  bind := M.bind

/-- Perform one outbound operation: record the event, and return the world
response or propagate the thrown error. -/
def callOp (e : Ev) : M JsVal := fun w => ([e], w e)

/-- A console.log: records a log event and always succeeds. -/
def logMsg (v : JsVal) : M Unit := fun _ => ([.log v], .ok ())

/-- A new Date getTime read: an external-world query for the clock. -/
def nowOp : M JsVal := callOp .now

/-- The per-parameter precedence chain used by every script: the
positional argument at the index, else the environment variable, else the
hard-coded default, each step skipped when its value is falsy. -/
def argOrEnv (argv : Nat → JsVal) (env : String → JsVal)
    (i : Nat) (name : String) (dflt : JsVal) : JsVal :=
  jsOr (jsOr (argv i) (env name)) dflt

/-- A JavaScript throw with a message. -/
def raise {α : Type} (msg : String) : M α := fun _ => ([], .error msg)

/-- A JavaScript try-catch block: on an uncaught exception in the body,
run the handler on the error, keeping the events of both. -/
def tryCatch {α : Type} (x : M α) (h : String → M α) : M α := fun w =>
  match x w with
  | (t, .ok a) => (t, .ok a)
  | (t, .error e) => (t ++ (h e w).1, (h e w).2)

/-- Trace of a program under a world. -/
def traceOf {α : Type} (x : M α) (w : W) : List Ev := (x w).1

/-- Outcome of a program under a world. -/
def resultOf {α : Type} (x : M α) (w : W) : Except String α := (x w).2

/-- A program escalates under a world when its outcome is an uncaught
exception. -/
def escalates {α : Type} (x : M α) (w : W) : Bool :=
  match resultOf x w with
  | .ok _ => false
  | .error _ => true

/-- Whether an event is a console.log. -/
def Ev.isLog : Ev → Bool
  | .log _ => true
  | _ => false

/-- Whether an event is a remote contract call (through a proxy) to the
given method name. -/
def Ev.isCallTo (name : String) : Ev → Bool
  | .contractCall _ _ _ _ m _ _ _ => m = name
  | _ => false

/-- Whether an event is a state-mutating proxy contract call whose attached
deposit is exactly the one-yoctoNEAR string. -/
def Ev.isChangeCall : Ev → Bool
  | .contractCall _ _ _ (_ :: _) _ _ _ _ => true
  | _ => false

/-- Whether an event, if it is a state-mutating proxy contract call,
attaches exactly the one-yoctoNEAR deposit string 1. -/
def Ev.changeDepositIsOne : Ev → Bool
  | .contractCall _ _ _ (_ :: _) _ _ _ (.str s) => s == "1"
  | .contractCall _ _ _ (_ :: _) _ _ _ _ => false
  | _ => true

/-- Every state-mutating proxy contract call in the trace attaches exactly
the deposit string 1. -/
def allChangeDepositsOne (t : List Ev) : Bool :=
  t.all Ev.changeDepositIsOne

/-- Whether an event writes a key to the local key store. -/
def Ev.isSetKey : Ev → Bool
  | .setKey _ _ _ => true
  | _ => false

/-- Whether any event of the trace is a contract call to the method. -/
def hasCallTo (name : String) (t : List Ev) : Bool :=
  t.any (Ev.isCallTo name)

/-- True when every event of the trace is a console.log: zero outbound
account, contract, file or key-store operations. -/
def onlyLogs (t : List Ev) : Bool :=
  t.all Ev.isLog

/-- Gas string attached by every fixed-gas call site in the repository. -/
def fixedGas : JsVal := .str "300000000000000"

/-!
Embedding of the invoker classes.  The repository keeps several historical
versions of the EnvironmentNFT class; each version present in the sources
is embedded under its own Lean namespace:
  EnvironmentNFT   - the current class in migrations/environmentsNFT/environmentNFT.ts
                     (deploy with an isRunInit flag);
  EnvironmentNFT1  - the earlier class in the same file (deploy without a
                     flag, whose init body is empty);
  EnvironmentNFT0  - the class version embedded alongside in
                     1.0_createaccountcontract.ts (deploy without a flag,
                     whose init issues the new call unconditionally);
  EnvironmentNFTstub - the earliest class (deploy with the deployContract
                     call commented out).
Class methods read this.config and this.network, set by the constructor;
the embeddings take the looked-up Config, the network value and the
process environment explicitly.
-/

/-- EnvironmentNFT.createAccount, current version: connect, load the
funding account from CREATOR_ACCOUNT_ID, generate a keypair, submit the
funded create_account call with the fixed gas string, store the keypair in
the key store keyed by networkId and the new account id, and return the
submission result. -/
def EnvironmentNFT.createAccount (cfg : Config) (network : JsVal)
    (env : String → JsVal) (newAccountId amount : JsVal) : M JsVal := do
  let _ ← callOp (.connect cfg)
  let _ ← callOp (.loadAccount (env "CREATOR_ACCOUNT_ID"))
  let kp ← callOp .genKeyPair
  let newAccount ← callOp (.functionCall network "create_account"
    (.obj [("new_account_id", newAccountId),
           ("new_public_key", publicKeyOf kp)])
    fixedGas (parseNearAmount amount))
  let _ ← callOp (.setKey cfg.networkId newAccountId kp)
  pure newAccount

/-- EnvironmentNFT.deleteAccount: connect and load the target account
outside the try block, then delete with the CREATOR_ACCOUNT_ID
beneficiary inside a try whose catch logs the error. -/
def EnvironmentNFT.deleteAccount (cfg : Config) (env : String → JsVal)
    (deletedAccountID : JsVal) : M Unit := do
  let _ ← callOp (.connect cfg)
  let _ ← callOp (.loadAccount deletedAccountID)
  tryCatch
    (do let _ ← callOp (.deleteAccountCall deletedAccountID
          (env "CREATOR_ACCOUNT_ID"))
        pure ())
    (fun e => logMsg (.str e))

/-- EnvironmentNFT.deleteKey: connect, then remove the key inside a try
whose catch logs the error. -/
def EnvironmentNFT.deleteKey (cfg : Config)
    (deletedAccountID : JsVal) : M Unit := do
  let _ ← callOp (.connect cfg)
  tryCatch
    (do let _ ← callOp (.removeKey cfg.networkId deletedAccountID)
        pure ())
    (fun e => logMsg (.str e))

/-- EnvironmentNFT.init, current version: a proxy on the contract account
declaring view method nft_metadata and change method new, then the new
call with admin, operator, treasury and metadata and the fixed gas.  No
try block of its own. -/
def EnvironmentNFT.init (contractAccountId account : JsVal)
    (adminId operatorId treasuryId contractMetadata : JsVal) : M Unit := do
  logMsg (.str "args")
  let _ ← callOp (.contractCall account contractAccountId
    ["nft_metadata"] ["new"] "new"
    (.obj [("admin_id", adminId), ("operator_id", operatorId),
           ("treasury_id", treasuryId), ("metadata", contractMetadata)])
    fixedGas .undefined)
  pure ()

/-- EnvironmentNFT.deploy, current version: connect, then inside a try load
the contract account, read the wasm binary, replace the account code, and
only when isRunInit is set issue the initialization; the catch logs. -/
def EnvironmentNFT.deploy (cfg : Config)
    (wasmFile contractAccountID : JsVal)
    (adminID operatorID treasuryID contractMetadata : JsVal)
    (isRunInit : Bool) : M Unit := do
  logMsg (.str "wasm: ")
  let _ ← callOp (.connect cfg)
  logMsg (.str "contractAccountID:")
  tryCatch
    (do let account ← callOp (.loadAccount contractAccountID)
        let wasm ← callOp (.readFile wasmFile)
        let _ ← callOp (.deployContract contractAccountID wasm)
        logMsg (.str "deploy on:")
        if isRunInit then
          EnvironmentNFT.init contractAccountID account
            adminID operatorID treasuryID contractMetadata
        else
          pure ())
    (fun e => logMsg (.str e))

/-- EnvironmentNFT.createNft: connect, log, then inside a try load the
signer and issue create_nft positionally with the fixed gas and a
parseNearAmount deposit; the catch logs. -/
def EnvironmentNFT.createNft (cfg : Config)
    (contractAccountId signerId nftTypeId price tokenMetadata maxSupply
      attachedDeposit : JsVal) : M Unit := do
  let _ ← callOp (.connect cfg)
  logMsg (.str "contractAccountId")
  tryCatch
    (do let signer ← callOp (.loadAccount signerId)
        let _ ← callOp (.contractCall signer contractAccountId
          [] ["create_nft"] "create_nft"
          (.obj [("nft_type_id", nftTypeId),
                 ("price", parseNearAmount price),
                 ("token_metadata", tokenMetadata),
                 ("max_supply", maxSupply)])
          fixedGas (parseNearAmount attachedDeposit))
        pure ())
    (fun e => logMsg (.str e))

/-- EnvironmentNFT.userMint: connect, log, then inside a try load the
signer and issue user_mint positionally with the fixed gas and a
parseNearAmount deposit; the catch logs. -/
def EnvironmentNFT.userMint (cfg : Config)
    (contractAccountId signerId nftTypeId receiverId attachedDeposit :
      JsVal) : M Unit := do
  let _ ← callOp (.connect cfg)
  logMsg (.str "contractAccountId")
  tryCatch
    (do let signer ← callOp (.loadAccount signerId)
        let _ ← callOp (.contractCall signer contractAccountId
          [] ["user_mint"] "user_mint"
          (.obj [("nft_type_id", nftTypeId),
                 ("receiver_id", receiverId)])
          fixedGas (parseNearAmount attachedDeposit))
        pure ())
    (fun e => logMsg (.str e))

/-- EnvironmentNFT.get: connect, then inside a try load the signer,
construct a proxy declaring only the view method get_admin, issue the
get_admin call and return its response; the catch logs and falls through,
returning undefined.  The method argument is accepted but never used. -/
def EnvironmentNFT.get (cfg : Config) (method : String)
    (contractAccountId signerId : JsVal) : M JsVal :=
  M.bind (callOp (.connect cfg)) (fun _ =>
    tryCatch
      (do let signer ← callOp (.loadAccount signerId)
          let response ← callOp (.contractCall signer contractAccountId
            ["get_admin"] [] "get_admin" (.obj []) .undefined .undefined)
          pure response)
      (fun e => do logMsg (.str e); pure .undefined))

/-- EnvironmentNFT.setAdmin: connect, then inside a try load the signer
and issue change_admin with amount 1; the catch logs. -/
def EnvironmentNFT.setAdmin (cfg : Config)
    (contractAccountId signerId newAdminId : JsVal) : M Unit := do
  let _ ← callOp (.connect cfg)
  tryCatch
    (do let signer ← callOp (.loadAccount signerId)
        let _ ← callOp (.contractCall signer contractAccountId
          [] ["change_admin"] "change_admin"
          (.obj [("new_admin_id", newAdminId)]) .undefined (.str "1"))
        pure ())
    (fun e => logMsg (.str e))

/-- EnvironmentNFT.changeOperator: connect, then inside a try load the
signer and issue change_operator with amount 1; the catch logs. -/
def EnvironmentNFT.changeOperator (cfg : Config)
    (contractAccountId signerId newOperatorId : JsVal) : M Unit := do
  let _ ← callOp (.connect cfg)
  tryCatch
    (do let signer ← callOp (.loadAccount signerId)
        let _ ← callOp (.contractCall signer contractAccountId
          [] ["change_operator"] "change_operator"
          (.obj [("new_operator_id", newOperatorId)]) .undefined (.str "1"))
        pure ())
    (fun e => logMsg (.str e))

/-- EnvironmentNFT.changeTreasury: connect, then inside a try load the
signer and issue change_treasury with amount 1; the catch logs. -/
def EnvironmentNFT.changeTreasury (cfg : Config)
    (contractAccountId signerId newTreasuryId : JsVal) : M Unit := do
  let _ ← callOp (.connect cfg)
  tryCatch
    (do let signer ← callOp (.loadAccount signerId)
        let _ ← callOp (.contractCall signer contractAccountId
          [] ["change_treasury"] "change_treasury"
          (.obj [("new_treasury_id", newTreasuryId)]) .undefined (.str "1"))
        pure ())
    (fun e => logMsg (.str e))

/-- EnvironmentNFT.updateTokenPrice: connect, then inside a try load the
signer and issue update_token_price with a parseNearAmount price and
amount 1; the catch logs. -/
def EnvironmentNFT.updateTokenPrice (cfg : Config)
    (contractAccountId signerId newTokenPrice : JsVal) : M Unit := do
  let _ ← callOp (.connect cfg)
  tryCatch
    (do let signer ← callOp (.loadAccount signerId)
        let _ ← callOp (.contractCall signer contractAccountId
          [] ["update_token_price"] "update_token_price"
          (.obj [("updated_price_in_string", parseNearAmount newTokenPrice)])
          .undefined (.str "1"))
        pure ())
    (fun e => logMsg (.str e))

/-- EnvironmentNFT.updateTokenMetadata: connect, then inside a try load
the signer and issue update_token_metadata with amount 1; the catch
logs. -/
def EnvironmentNFT.updateTokenMetadata (cfg : Config)
    (contractAccountId signerId newTokenMetadata : JsVal) : M Unit := do
  let _ ← callOp (.connect cfg)
  tryCatch
    (do let signer ← callOp (.loadAccount signerId)
        let _ ← callOp (.contractCall signer contractAccountId
          [] ["update_token_metadata"] "update_token_metadata"
          (.obj [("updated_token_metadata", newTokenMetadata)])
          .undefined (.str "1"))
        pure ())
    (fun e => logMsg (.str e))

/-- EnvironmentNFT.updateMintedTokenMetadata: connect, then inside a try
load the signer and issue update_minted_token_metadata with amount 1; the
catch logs. -/
def EnvironmentNFT.updateMintedTokenMetadata (cfg : Config)
    (contractAccountId signerId tokenId newTokenMetadata : JsVal) :
    M Unit := do
  let _ ← callOp (.connect cfg)
  tryCatch
    (do let signer ← callOp (.loadAccount signerId)
        let _ ← callOp (.contractCall signer contractAccountId
          [] ["update_minted_token_metadata"] "update_minted_token_metadata"
          (.obj [("updated_token_metadata", newTokenMetadata),
                 ("token_id", tokenId)])
          .undefined (.str "1"))
        pure ())
    (fun e => logMsg (.str e))

/-- EnvironmentNFT.updateContractMetadata: connect, then inside a try load
the signer and issue update_contract_metadata with amount 1; the catch
logs. -/
def EnvironmentNFT.updateContractMetadata (cfg : Config)
    (contractAccountId signerId newContractMetadata : JsVal) : M Unit := do
  let _ ← callOp (.connect cfg)
  tryCatch
    (do let signer ← callOp (.loadAccount signerId)
        let _ ← callOp (.contractCall signer contractAccountId
          [] ["update_contract_metadata"] "update_contract_metadata"
          (.obj [("updated_contract_metadata", newContractMetadata)])
          .undefined (.str "1"))
        pure ())
    (fun e => logMsg (.str e))

/-- EnvironmentNFT.updateRoyalties: connect, then inside a try load the
signer, build the single-entry royalty map and issue update_royalties
with amount 1, logging the response; the catch logs. -/
def EnvironmentNFT.updateRoyalties (cfg : Config)
    (contractAccountId signerId royaltyId royaltyAmount : JsVal) :
    M Unit := do
  let _ ← callOp (.connect cfg)
  tryCatch
    (do let signer ← callOp (.loadAccount signerId)
        let response ← callOp (.contractCall signer contractAccountId
          [] ["update_royalties"] "update_royalties"
          (.obj [("updated_royalties",
                  .obj [(jsToString royaltyId, royaltyAmount)])])
          .undefined (.str "1"))
        logMsg response)
    (fun e => logMsg (.str e))

/-- EnvironmentNFT1.createAccount, earlier version: identical to the
current one except that the gas budget is a caller-supplied amount passed
through parseNearAmount instead of the fixed gas string. -/
def EnvironmentNFT1.createAccount (cfg : Config) (network : JsVal)
    (env : String → JsVal) (newAccountId amount gas : JsVal) : M JsVal := do
  let _ ← callOp (.connect cfg)
  let _ ← callOp (.loadAccount (env "CREATOR_ACCOUNT_ID"))
  let kp ← callOp .genKeyPair
  let newAccount ← callOp (.functionCall network "create_account"
    (.obj [("new_account_id", newAccountId),
           ("new_public_key", publicKeyOf kp)])
    (parseNearAmount gas) (parseNearAmount amount))
  let _ ← callOp (.setKey cfg.networkId newAccountId kp)
  pure newAccount

/-- EnvironmentNFT1.init, earlier version: the body is an empty comment,
so no call is issued. -/
def EnvironmentNFT1.init (adminID operatorID price tokenMetadata : JsVal) :
    M Unit :=
  pure ()

/-- EnvironmentNFT1.deploy, earlier version: no run-init flag; connect,
then inside a try load the contract account, read the wasm binary,
replace the code and always call init, whose body is empty; the catch
logs. -/
def EnvironmentNFT1.deploy (cfg : Config)
    (wasmFile contractAccountID price tokenMetadata
      adminID operatorID treasuryID : JsVal) : M Unit := do
  logMsg (.str "wasm: ")
  let _ ← callOp (.connect cfg)
  logMsg (.str "contractAccountID:")
  tryCatch
    (do let _ ← callOp (.loadAccount contractAccountID)
        let wasm ← callOp (.readFile wasmFile)
        let _ ← callOp (.deployContract contractAccountID wasm)
        logMsg (.str "deploy on:")
        EnvironmentNFT1.init adminID operatorID price tokenMetadata)
    (fun e => logMsg (.str e))

/-- EnvironmentNFT0.init, the class version embedded in
1.0_createaccountcontract.ts: a proxy declaring view nft_metadata and
change new, then the new call, issued positionally with the fixed gas,
carrying a hard-coded max_supply of 20, a hard-coded collection metadata
record, a token_price of 1 and the token metadata. -/
def EnvironmentNFT0.init (contractAccountId account : JsVal)
    (adminId operatorId treasuryId price tokenMetadata : JsVal) :
    M Unit := do
  let _ ← callOp (.contractCall account contractAccountId
    ["nft_metadata"] ["new"] "new"
    (.obj [("admin_id", adminId), ("operator_id", operatorId),
           ("treasury_id", treasuryId), ("max_supply", .num 20),
           ("metadata", .obj [("spec", .str "nft-1.0.0"),
                              ("name", .str "rove-nft"),
                              ("symbol", .str "ROVE-NFT")]),
           ("token_price", .num 1),
           ("token_metadata", tokenMetadata)])
    fixedGas .undefined)
  pure ()

/-- EnvironmentNFT0.deploy: no run-init flag; connect, then inside a try
load the contract account, read the wasm binary, replace the code and
unconditionally issue the initialization call; the catch logs. -/
def EnvironmentNFT0.deploy (cfg : Config)
    (wasmFile contractAccountID price tokenMetadata
      adminID operatorID treasuryID : JsVal) : M Unit := do
  logMsg (.str "wasm: ")
  let _ ← callOp (.connect cfg)
  logMsg (.str "contractAccountID:")
  tryCatch
    (do let account ← callOp (.loadAccount contractAccountID)
        let wasm ← callOp (.readFile wasmFile)
        let _ ← callOp (.deployContract contractAccountID wasm)
        logMsg (.str "deploy on:")
        EnvironmentNFT0.init contractAccountID account
          adminID operatorID treasuryID price tokenMetadata)
    (fun e => logMsg (.str e))

/-- EnvironmentNFT0.createAccount: identical to the current
createAccount. -/
def EnvironmentNFT0.createAccount (cfg : Config) (network : JsVal)
    (env : String → JsVal) (newAccountId amount : JsVal) : M JsVal :=
  EnvironmentNFT.createAccount cfg network env newAccountId amount

/-- EnvironmentNFT0.createNFT: connect, log, then inside a try load the
signer and issue nft_create positionally with the fixed gas and the raw
attached deposit; the catch logs. -/
def EnvironmentNFT0.createNFT (cfg : Config)
    (contractAccountId signerId receiverId attachedDeposit : JsVal) :
    M Unit := do
  let _ ← callOp (.connect cfg)
  logMsg (.str "contractAccountId")
  tryCatch
    (do let signer ← callOp (.loadAccount signerId)
        let _ ← callOp (.contractCall signer contractAccountId
          [] ["nft_create"] "nft_create"
          (.obj [("receiver_id", receiverId)])
          fixedGas attachedDeposit)
        pure ())
    (fun e => logMsg (.str e))

/-- EnvironmentNFTstub.deploy, the earliest class version: logs the
arguments and connects; the deployContract call is commented out, so no
code-replacement or initialization call is issued. -/
def EnvironmentNFTstub.deploy (cfg : Config)
    (wasm accountID : JsVal) : M Unit := do
  logMsg wasm
  logMsg accountID
  let _ ← callOp (.connect cfg)
  pure ()

/-!
Embedding of the RockNFTCollectionHolder class from
migrations/rockNFTCollectionHolder/1.0_deleteaccountcontract.ts.
-/

/-- RockNFTCollectionHolder.createAccount: same shape as the current
EnvironmentNFT.createAccount. -/
def RockNFTCollectionHolder.createAccount (cfg : Config) (network : JsVal)
    (env : String → JsVal) (newAccountId amount : JsVal) : M JsVal := do
  let _ ← callOp (.connect cfg)
  let _ ← callOp (.loadAccount (env "CREATOR_ACCOUNT_ID"))
  let kp ← callOp .genKeyPair
  let newAccount ← callOp (.functionCall network "create_account"
    (.obj [("new_account_id", newAccountId),
           ("new_public_key", publicKeyOf kp)])
    fixedGas (parseNearAmount amount))
  let _ ← callOp (.setKey cfg.networkId newAccountId kp)
  pure newAccount

/-- RockNFTCollectionHolder.deleteAccount: connect and load the target
account outside the try, delete inside the try, catch logs. -/
def RockNFTCollectionHolder.deleteAccount (cfg : Config)
    (env : String → JsVal) (deletedAccountID : JsVal) : M Unit := do
  let _ ← callOp (.connect cfg)
  let _ ← callOp (.loadAccount deletedAccountID)
  tryCatch
    (do let _ ← callOp (.deleteAccountCall deletedAccountID
          (env "CREATOR_ACCOUNT_ID"))
        pure ())
    (fun e => logMsg (.str e))

/-- RockNFTCollectionHolder.deleteKey: connect, remove the key inside a
try, catch logs. -/
def RockNFTCollectionHolder.deleteKey (cfg : Config)
    (deletedAccountID : JsVal) : M Unit := do
  let _ ← callOp (.connect cfg)
  tryCatch
    (do let _ ← callOp (.removeKey cfg.networkId deletedAccountID)
        pure ())
    (fun e => logMsg (.str e))

/-- RockNFTCollectionHolder.init: a proxy declaring only the change
method new, then the new call with admin, operator, treasury, fee and
holder-size parameters and the contract metadata, with the fixed gas.
No try block of its own. -/
def RockNFTCollectionHolder.init (contractAccountId account : JsVal)
    (adminId operatorId treasuryId initImoFee rockPurchaseFee
      initImoNftHolderSize contractMetadata : JsVal) : M Unit := do
  logMsg (.str "args")
  let _ ← callOp (.contractCall account contractAccountId
    [] ["new"] "new"
    (.obj [("admin_id", adminId), ("operator_id", operatorId),
           ("treasury_id", treasuryId), ("init_imo_fee", initImoFee),
           ("rock_purchase_fee", rockPurchaseFee),
           ("init_imo_nft_holder_size", initImoNftHolderSize),
           ("metadata", contractMetadata)])
    fixedGas .undefined)
  pure ()

/-- RockNFTCollectionHolder.deploy: connect, then inside a try load the
contract account, read the wasm binary, replace the code, and only when
isRunInit is set issue the initialization; the catch logs. -/
def RockNFTCollectionHolder.deploy (cfg : Config)
    (wasmFile contractAccountID : JsVal)
    (adminID operatorID treasuryID initImoFee rockPurchaseFee
      initImoNftHolderSize contractMetadata : JsVal)
    (isRunInit : Bool) : M Unit := do
  let _ ← callOp (.connect cfg)
  tryCatch
    (do let account ← callOp (.loadAccount contractAccountID)
        let wasm ← callOp (.readFile wasmFile)
        let _ ← callOp (.deployContract contractAccountID wasm)
        logMsg (.str "deploy on:")
        if isRunInit then
          RockNFTCollectionHolder.init contractAccountID account
            adminID operatorID treasuryID initImoFee rockPurchaseFee
            initImoNftHolderSize contractMetadata
        else
          pure ())
    (fun e => logMsg (.str e))

/-- RockNFTCollectionHolder.initMetaverse: connect, then inside a try load
the signer and issue init_metaverse with the zone-2 record, the fixed gas
and a parseNearAmount deposit; the catch logs. -/
def RockNFTCollectionHolder.initMetaverse (cfg : Config)
    (signerAccountId contractAccountID metaverseID totalSupply price
      collectionAddress attachedDeposit : JsVal) : M Unit := do
  let _ ← callOp (.connect cfg)
  tryCatch
    (do let signer ← callOp (.loadAccount signerAccountId)
        logMsg (.str "call initMetaverse with args")
        let _ ← callOp (.contractCall signer contractAccountID
          [] ["init_metaverse"] "init_metaverse"
          (.obj [("metaverse_id", metaverseID),
                 ("_zone2", .obj
                   [("zone_index", .num 2),
                    ("price", parseNearAmount price),
                    ("core_team_addr", .str ""),
                    ("collection_addr", collectionAddress),
                    ("type_zone", .num 2),
                    ("rock_index_from", .num 2),
                    ("rock_index_to", .num 501)])])
          fixedGas (parseNearAmount attachedDeposit))
        pure ())
    (fun e => logMsg (.str e))

/-- RockNFTCollectionHolder.getZoneInfo: connect, then inside a try load
the signer, issue the view call get_zone_info and log the response; the
catch logs. -/
def RockNFTCollectionHolder.getZoneInfo (cfg : Config)
    (signerAccountId contractAccountID metaverseID zoneIndex : JsVal) :
    M Unit := do
  let _ ← callOp (.connect cfg)
  tryCatch
    (do let signer ← callOp (.loadAccount signerAccountId)
        logMsg (.str "call get_zone_info with args")
        let response ← callOp (.contractCall signer contractAccountID
          ["get_zone_info"] [] "get_zone_info"
          (.obj [("metaverse_id", metaverseID),
                 ("zone_index", zoneIndex)])
          .undefined .undefined)
        logMsg response)
    (fun e => logMsg (.str e))

/-- RockNFTCollectionHolder.mintRock: connect, log, then inside a try load
the signer and issue mint_rock with the metaverse, zone and rock indexes,
receiver and token metadata, the fixed gas and a parseNearAmount deposit,
logging the response; the catch logs. -/
def RockNFTCollectionHolder.mintRock (cfg : Config)
    (signerId contractAccountId metaverseId zoneIndex rockIndex
      receiverId tokenMetadata attachedDeposit : JsVal) : M Unit := do
  let _ ← callOp (.connect cfg)
  logMsg (.str "contractAccountId")
  tryCatch
    (do let signer ← callOp (.loadAccount signerId)
        logMsg (.str "call mint_rock with args:")
        let response ← callOp (.contractCall signer contractAccountId
          [] ["mint_rock"] "mint_rock"
          (.obj [("metaverse_id", metaverseId),
                 ("zone_index", zoneIndex),
                 ("rock_index", rockIndex),
                 ("receiver_id", receiverId),
                 ("token_metadata", tokenMetadata)])
          fixedGas (parseNearAmount attachedDeposit))
        logMsg response)
    (fun e => logMsg (.str e))

/-- RockNFTCollectionHolder.get: connect, then inside a try load the
signer, construct a proxy declaring only the view method get_admin, issue
the get_admin call and return its response; the catch logs and falls
through, returning undefined.  The method argument is accepted but never
used. -/
def RockNFTCollectionHolder.get (cfg : Config) (method : String)
    (contractAccountId signerId : JsVal) : M JsVal :=
  M.bind (callOp (.connect cfg)) (fun _ =>
    tryCatch
      (do let signer ← callOp (.loadAccount signerId)
          let response ← callOp (.contractCall signer contractAccountId
            ["get_admin"] [] "get_admin" (.obj []) .undefined .undefined)
          pure response)
      (fun e => do logMsg (.str e); pure .undefined))

/-- RockNFTCollectionHolder.setAdmin: same shape as
EnvironmentNFT.setAdmin, with amount 1. -/
def RockNFTCollectionHolder.setAdmin (cfg : Config)
    (contractAccountId signerId newAdminId : JsVal) : M Unit :=
  EnvironmentNFT.setAdmin cfg contractAccountId signerId newAdminId

/-- RockNFTCollectionHolder.changeOperator: same shape as
EnvironmentNFT.changeOperator, with amount 1. -/
def RockNFTCollectionHolder.changeOperator (cfg : Config)
    (contractAccountId signerId newOperatorId : JsVal) : M Unit :=
  EnvironmentNFT.changeOperator cfg contractAccountId signerId newOperatorId

/-- RockNFTCollectionHolder.changeTreasury: same shape as
EnvironmentNFT.changeTreasury, with amount 1. -/
def RockNFTCollectionHolder.changeTreasury (cfg : Config)
    (contractAccountId signerId newTreasuryId : JsVal) : M Unit :=
  EnvironmentNFT.changeTreasury cfg contractAccountId signerId newTreasuryId

/-- RockNFTCollectionHolder.updateTokenPrice: same shape as
EnvironmentNFT.updateTokenPrice, with amount 1. -/
def RockNFTCollectionHolder.updateTokenPrice (cfg : Config)
    (contractAccountId signerId newTokenPrice : JsVal) : M Unit :=
  EnvironmentNFT.updateTokenPrice cfg contractAccountId signerId newTokenPrice

/-- RockNFTCollectionHolder.updateTokenMetadata: same shape as
EnvironmentNFT.updateTokenMetadata, with amount 1. -/
def RockNFTCollectionHolder.updateTokenMetadata (cfg : Config)
    (contractAccountId signerId newTokenMetadata : JsVal) : M Unit :=
  EnvironmentNFT.updateTokenMetadata cfg contractAccountId signerId
    newTokenMetadata

/-- RockNFTCollectionHolder.updateMintedTokenMetadata: same shape as
EnvironmentNFT.updateMintedTokenMetadata, with amount 1. -/
def RockNFTCollectionHolder.updateMintedTokenMetadata (cfg : Config)
    (contractAccountId signerId tokenId newTokenMetadata : JsVal) :
    M Unit :=
  EnvironmentNFT.updateMintedTokenMetadata cfg contractAccountId signerId
    tokenId newTokenMetadata

/-- RockNFTCollectionHolder.updateContractMetadata: same shape as
EnvironmentNFT.updateContractMetadata, with amount 1. -/
def RockNFTCollectionHolder.updateContractMetadata (cfg : Config)
    (contractAccountId signerId newContractMetadata : JsVal) : M Unit :=
  EnvironmentNFT.updateContractMetadata cfg contractAccountId signerId
    newContractMetadata

/-- RockNFTCollectionHolder.updateRoyalties: connect, then inside a try
load the signer, build the single-entry royalty map and issue
update_royalties carrying also the nft_type_id, with amount 1, logging the
response; the catch logs. -/
def RockNFTCollectionHolder.updateRoyalties (cfg : Config)
    (contractAccountId signerId nftTypeId royaltyId royaltyAmount :
      JsVal) : M Unit := do
  let _ ← callOp (.connect cfg)
  tryCatch
    (do let signer ← callOp (.loadAccount signerId)
        let response ← callOp (.contractCall signer contractAccountId
          [] ["update_royalties"] "update_royalties"
          (.obj [("nft_type_id", nftTypeId),
                 ("updated_royalties",
                  .obj [(jsToString royaltyId, royaltyAmount)])])
          .undefined (.str "1"))
        logMsg response)
    (fun e => logMsg (.str e))

/-!
The RockNFT class file itself (migrations/rockNFT/rockNFT.ts) is not
among the sources; only its callers are.  Its operations are modelled
from the spec, which describes one uniform deploy-initialize-invoke
pattern shared by all invoker classes, and from the argument lists at the
call sites in migrations/rockNFT.
-/

/-- Modelled from the spec: RockNFT.createAccount, missing with the
RockNFT class file; per the uniform account-manager contract it connects,
loads the funding account, generates a keypair, submits the funded
create_account call with the fixed gas budget and stores the keypair. -/
def RockNFT.createAccount (cfg : Config) (network : JsVal)
    (env : String → JsVal) (newAccountId amount : JsVal) : M JsVal :=
  RockNFTCollectionHolder.createAccount cfg network env newAccountId amount

/-- Modelled from the spec: RockNFT.deleteAccount, missing with the
RockNFT class file; per the uniform account-manager contract it loads the
target account and deletes it toward the configured beneficiary, catching
and logging errors of the deletion call. -/
def RockNFT.deleteAccount (cfg : Config) (env : String → JsVal)
    (deletedAccountID : JsVal) : M Unit :=
  RockNFTCollectionHolder.deleteAccount cfg env deletedAccountID

/-- Modelled from the spec: RockNFT.init, missing with the RockNFT class
file; per the uniform pattern and the deploy call sites it issues the new
call with admin, operator, treasury, fee parameters and contract
metadata. -/
def RockNFT.init (contractAccountId account : JsVal)
    (adminId operatorId treasuryId initImoFee rockPurchaseFee
      contractMetadata : JsVal) : M Unit := do
  let _ ← callOp (.contractCall account contractAccountId
    [] ["new"] "new"
    (.obj [("admin_id", adminId), ("operator_id", operatorId),
           ("treasury_id", treasuryId), ("init_imo_fee", initImoFee),
           ("rock_purchase_fee", rockPurchaseFee),
           ("metadata", contractMetadata)])
    fixedGas .undefined)
  pure ()

/-- Modelled from the spec: RockNFT.deploy, missing with the RockNFT class
file; per the spec it reads the binary, replaces the account code, and
only when the run-init flag is set issues the initialization call, errors
being caught and logged. -/
def RockNFT.deploy (cfg : Config)
    (wasmFile contractAccountID : JsVal)
    (adminID operatorID treasuryID initImoFee rockPurchaseFee
      contractMetadata : JsVal) (isRunInit : Bool) : M Unit := do
  let _ ← callOp (.connect cfg)
  tryCatch
    (do let account ← callOp (.loadAccount contractAccountID)
        let wasm ← callOp (.readFile wasmFile)
        let _ ← callOp (.deployContract contractAccountID wasm)
        logMsg (.str "deploy on:")
        if isRunInit then
          RockNFT.init contractAccountID account
            adminID operatorID treasuryID initImoFee rockPurchaseFee
            contractMetadata
        else
          pure ())
    (fun e => logMsg (.str e))

/-- Modelled from the spec: RockNFT.initMetaverse, missing with the
RockNFT class file; per the uniform invoker contract it issues
init_metaverse with the caller-supplied metaverse parameters, catching
and logging failures. -/
def RockNFT.initMetaverse (cfg : Config)
    (signerAccountId contractAccountID metaverseID totalSupply price
      attachedDeposit : JsVal) : M Unit := do
  let _ ← callOp (.connect cfg)
  tryCatch
    (do let signer ← callOp (.loadAccount signerAccountId)
        let _ ← callOp (.contractCall signer contractAccountID
          [] ["init_metaverse"] "init_metaverse"
          (.obj [("metaverse_id", metaverseID),
                 ("total_supply", totalSupply),
                 ("price", parseNearAmount price)])
          fixedGas (parseNearAmount attachedDeposit))
        pure ())
    (fun e => logMsg (.str e))

/-- Modelled from the spec: RockNFT.mintRock, missing with the RockNFT
class file; per the uniform invoker contract it issues mint_rock with the
metaverse, zone and rock indexes, receiver and token metadata, catching
and logging failures. -/
def RockNFT.mintRock (cfg : Config)
    (signerId contractAccountId metaverseId zoneIndex rockIndex
      receiverId tokenMetadata attachedDeposit : JsVal) : M Unit :=
  RockNFTCollectionHolder.mintRock cfg signerId contractAccountId
    metaverseId zoneIndex rockIndex receiverId tokenMetadata
    attachedDeposit

/-- Modelled from the spec: RockNFT.get, missing with the RockNFT class
file; the spec describes the generic view invoker as issuing the one
method being called, and the sibling classes in the sources hard-code
get_admin; this model follows the sibling classes, which the sources
shared until the split. -/
def RockNFT.get (cfg : Config) (method : String)
    (contractAccountId signerId : JsVal) : M JsVal :=
  RockNFTCollectionHolder.get cfg method contractAccountId signerId

/-!
Embedding of the entry scripts.  Each script takes the process
environment and the positional argument vector and runs in M.  A script
of the first guard style constructs the class (whose constructor logs the
network and the config), then aborts when the looked-up config is falsy;
a script of the second style aborts when NETWORK is not the literal
testnet before constructing anything.  The outermost try of every script
logs any uncaught error.
-/

/-- Entry script migrations/rockNFT/1.0_createaccountcontract.ts: config
guard, timestamped contract account id, createAccount, log. -/
def script_rockNFT_1_0_createaccountcontract (env : String → JsVal)
    (argv : Nat → JsVal) : M Unit :=
  tryCatch
    (do logMsg (.str "network:")
        logMsg (.str "config:")
        match nearConfigAt (env "NETWORK") with
        | none => logMsg (.str "wrong network")
        | some cfg => do
          let t ← nowOp
          let contractAccountId : JsVal := .str (jsToString (argv 2) ++
            "-contract-" ++ jsToString t ++ "-" ++
            jsToString (env "CREATOR_ACCOUNT_ID"))
          let _ ← RockNFT.createAccount cfg (env "NETWORK") env
            contractAccountId (argv 3)
          logMsg (.str "Created contractAccountID"))
    (fun e => logMsg (.str e))

/-- Entry script migrations/rockNFT/1.1_deploy.ts: config guard, resolve
the deploy parameters with their environment fallbacks, warn on a missing
metadata file, read it, deploy with run-init set. -/
def script_rockNFT_1_1_deploy (env : String → JsVal)
    (argv : Nat → JsVal) : M Unit :=
  tryCatch
    (do logMsg (.str "network:")
        logMsg (.str "config:")
        match nearConfigAt (env "NETWORK") with
        | none => logMsg (.str "wrong network")
        | some cfg => do
          let wasm := argv 2
          let contractAccountId := argv 3
          let adminId := argOrEnv argv env 4 "ADMIN_ID" (.str "")
          let operatorId := argOrEnv argv env 5 "OPERATOR_ID" (.str "")
          let treasuryId := argOrEnv argv env 6 "TREASURY_ID" (.str "")
          let initIMOFee := argOrEnv argv env 7 "INIT_IMO_FEE" (.str "")
          let rockPurchaseFee :=
            argOrEnv argv env 8 "ROCK_PURCHASE_FEE" (.str "")
          let contractMetadataFile := jsOr (argv 9) (.str "")
          if jsIsEmptyString contractMetadataFile then
            logMsg (.str "missing contract metadata file")
          else
            pure ()
          let contractMetadata ← callOp (.readFile contractMetadataFile)
          RockNFT.deploy cfg wasm contractAccountId adminId operatorId
            treasuryId initIMOFee (parseIntJs (some 10) rockPurchaseFee)
            contractMetadata true
          logMsg (.str "Deployed contract on contractAccountId:"))
    (fun e => logMsg (.str e))

/-- Entry script migrations/rockNFT/1.4_mint_rock.ts: config guard,
resolve the mint parameters, read the token metadata, mint; the zone and
rock indexes are parsed with parseInt without a radix argument. -/
def script_rockNFT_1_4_mint_rock (env : String → JsVal)
    (argv : Nat → JsVal) : M Unit :=
  tryCatch
    (do logMsg (.str "network:")
        logMsg (.str "config:")
        match nearConfigAt (env "NETWORK") with
        | none => logMsg (.str "wrong network")
        | some cfg => do
          let metaverseID := jsOr (argv 2) (.str "")
          let tokenMetadata ← callOp (.readFile (argv 7))
          RockNFT.mintRock cfg (argv 6) (argv 5) metaverseID
            (parseIntJs none (argv 3)) (parseIntJs none (argv 4))
            (argv 8) tokenMetadata (argv 9))
    (fun e => logMsg (.str e))

/-- Entry script migrations/rockNFT/1.5_get_init_imo_fee.ts: config
guard, then the generic view invoker with the method name
get_init_imo_fee. -/
def script_rockNFT_1_5_get_init_imo_fee (env : String → JsVal)
    (argv : Nat → JsVal) : M Unit :=
  tryCatch
    (do logMsg (.str "network:")
        logMsg (.str "config:")
        match nearConfigAt (env "NETWORK") with
        | none => logMsg (.str "wrong network")
        | some cfg => do
          let _ ← RockNFT.get cfg "get_init_imo_fee" (argv 2) (argv 3)
          pure ())
    (fun e => logMsg (.str e))

/-- Entry script src/unnamed/part_000 (the rockNFT upgrade script):
config guard, then deploy with empty identities, fee 0 and the run-init
flag false. -/
def script_part_000 (env : String → JsVal)
    (argv : Nat → JsVal) : M Unit :=
  tryCatch
    (do logMsg (.str "network:")
        logMsg (.str "config:")
        match nearConfigAt (env "NETWORK") with
        | none => logMsg (.str "wrong network")
        | some cfg => do
          RockNFT.deploy cfg (argv 2) (argv 3) (.str "") (.str "")
            (.str "") (.str "") (.num 0) (.str "") false
          logMsg (.str "Upgraded contract on contractAccountId:"))
    (fun e => logMsg (.str e))

/-- Entry script src/unnamed/part_001 (the rockNFT account deletion
script): config guard, deleteAccount, log. -/
def script_part_001 (env : String → JsVal)
    (argv : Nat → JsVal) : M Unit :=
  tryCatch
    (do logMsg (.str "network:")
        logMsg (.str "config:")
        match nearConfigAt (env "NETWORK") with
        | none => logMsg (.str "wrong network")
        | some cfg => do
          RockNFT.deleteAccount cfg env (argv 2)
          logMsg (.str "Deleted contractAccountID"))
    (fun e => logMsg (.str e))

/-- Entry script src/unnamed/part_002 (the rockNFT initMetaverse script):
config guard, resolve the metaverse parameters with their environment
fallbacks, parse the total supply without a radix, call initMetaverse. -/
def script_part_002 (env : String → JsVal)
    (argv : Nat → JsVal) : M Unit :=
  tryCatch
    (do logMsg (.str "network:")
        logMsg (.str "config:")
        match nearConfigAt (env "NETWORK") with
        | none => logMsg (.str "wrong network")
        | some cfg => do
          let totalSupply :=
            argOrEnv argv env 2 "PUBLIC_TOTAL_SUPPLY" (.str "")
          let price := argOrEnv argv env 3 "PUBLIC_PRICE" (.str "")
          let signerAccount :=
            argOrEnv argv env 4 "SIGNER_ACCOUNT" (.str "")
          let contractAccount :=
            argOrEnv argv env 5 "CONTRACT_ACCOUNT" (.str "")
          let metaverseID := argOrEnv argv env 6 "METAVERSE_ID" (.str "")
          let attachDeposit := argOrEnv argv env 7 "DEPOSIT" (.str "")
          RockNFT.initMetaverse cfg signerAccount contractAccount
            metaverseID (parseIntJs none totalSupply) price attachDeposit)
    (fun e => logMsg (.str e))

/-- Entry script
migrations/rockNFTCollectionHolder/1.0_createaccountcontract.ts: config
guard, timestamped contract account id, createAccount, log. -/
def script_rockNFTCH_1_0_createaccountcontract (env : String → JsVal)
    (argv : Nat → JsVal) : M Unit :=
  tryCatch
    (do logMsg (.str "network:")
        logMsg (.str "config:")
        match nearConfigAt (env "NETWORK") with
        | none => logMsg (.str "wrong network")
        | some cfg => do
          let t ← nowOp
          let contractAccountId : JsVal := .str (jsToString (argv 2) ++
            "-contract-" ++ jsToString t ++ "-" ++
            jsToString (env "CREATOR_ACCOUNT_ID"))
          let _ ← RockNFTCollectionHolder.createAccount cfg
            (env "NETWORK") env contractAccountId (argv 3)
          logMsg (.str "Created contractAccountID"))
    (fun e => logMsg (.str e))

/-- The second script kept in
migrations/rockNFTCollectionHolder/1.0_createaccountcontract.ts: config
guard, resolve the metaverse parameters (the collection address purely
positional), call initMetaverse. -/
def script_rockNFTCH_initMetaverse (env : String → JsVal)
    (argv : Nat → JsVal) : M Unit :=
  tryCatch
    (do logMsg (.str "network:")
        logMsg (.str "config:")
        match nearConfigAt (env "NETWORK") with
        | none => logMsg (.str "wrong network")
        | some cfg => do
          let totalSupply :=
            argOrEnv argv env 2 "PUBLIC_TOTAL_SUPPLY" (.str "")
          let price := argOrEnv argv env 3 "PUBLIC_PRICE" (.str "")
          let collectionAddress := jsOr (argv 4) (.str "")
          let signerAccount :=
            argOrEnv argv env 5 "SIGNER_ACCOUNT" (.str "")
          let contractAccount :=
            argOrEnv argv env 6 "CONTRACT_ACCOUNT" (.str "")
          let metaverseID := argOrEnv argv env 7 "METAVERSE_ID" (.str "")
          let attachDeposit := argOrEnv argv env 8 "DEPOSIT" (.str "")
          RockNFTCollectionHolder.initMetaverse cfg signerAccount
            contractAccount metaverseID (parseIntJs none totalSupply)
            price collectionAddress attachDeposit)
    (fun e => logMsg (.str e))

/-- Entry script
migrations/rockNFTCollectionHolder/1.0_deleteaccountcontract.ts: config
guard, deleteAccount, log. -/
def script_rockNFTCH_1_0_deleteaccountcontract (env : String → JsVal)
    (argv : Nat → JsVal) : M Unit :=
  tryCatch
    (do logMsg (.str "network:")
        logMsg (.str "config:")
        match nearConfigAt (env "NETWORK") with
        | none => logMsg (.str "wrong network")
        | some cfg => do
          RockNFTCollectionHolder.deleteAccount cfg env (argv 2)
          logMsg (.str "Deleted contractAccountID"))
    (fun e => logMsg (.str e))

/-- Entry script src/unnamed/part_003 (the collection-holder deploy
script): config guard, resolve the deploy parameters with their
environment fallbacks, warn on a missing metadata file, read it, deploy
with run-init set; the fee and holder size are parsed with radix 10. -/
def script_part_003 (env : String → JsVal)
    (argv : Nat → JsVal) : M Unit :=
  tryCatch
    (do logMsg (.str "network:")
        logMsg (.str "config:")
        match nearConfigAt (env "NETWORK") with
        | none => logMsg (.str "wrong network")
        | some cfg => do
          let wasm := argv 2
          let contractAccountId := argv 3
          let adminId := argOrEnv argv env 4 "ADMIN_ID" (.str "")
          let operatorId := argOrEnv argv env 5 "OPERATOR_ID" (.str "")
          let treasuryId := argOrEnv argv env 6 "TREASURY_ID" (.str "")
          let initIMOFee := argOrEnv argv env 7 "INIT_IMO_FEE" (.str "")
          let rockPurchaseFee :=
            argOrEnv argv env 8 "ROCK_PURCHASE_FEE" (.str "")
          let initImoNftHolderSize := jsOr (argv 9) (.str "")
          let contractMetadataFile := jsOr (argv 10) (.str "")
          if jsIsEmptyString contractMetadataFile then
            logMsg (.str "missing contract metadata file")
          else
            pure ()
          let contractMetadata ← callOp (.readFile contractMetadataFile)
          RockNFTCollectionHolder.deploy cfg wasm contractAccountId
            adminId operatorId treasuryId initIMOFee
            (parseIntJs (some 10) rockPurchaseFee)
            (parseIntJs (some 10) initImoNftHolderSize)
            contractMetadata true
          logMsg (.str "Deployed contract on contractAccountId:"))
    (fun e => logMsg (.str e))

/-- Entry script migrations/rockNFTCollectionHolder/1.3_get_zone_info.ts:
config guard, resolve the zone query parameters, call getZoneInfo with
the zone index parsed without a radix. -/
def script_rockNFTCH_1_3_get_zone_info (env : String → JsVal)
    (argv : Nat → JsVal) : M Unit :=
  tryCatch
    (do logMsg (.str "network:")
        logMsg (.str "config:")
        match nearConfigAt (env "NETWORK") with
        | none => logMsg (.str "wrong network")
        | some cfg => do
          let metaverseID := jsOr (argv 2) (.str "")
          RockNFTCollectionHolder.getZoneInfo cfg (argv 5) (argv 4)
            metaverseID (parseIntJs none (argv 3)))
    (fun e => logMsg (.str e))

/-- Entry script migrations/rockNFTCollectionHolder/1.4_mint_rock.ts:
config guard, resolve the mint parameters, read the token metadata, mint;
the zone and rock indexes are parsed without a radix. -/
def script_rockNFTCH_1_4_mint_rock (env : String → JsVal)
    (argv : Nat → JsVal) : M Unit :=
  tryCatch
    (do logMsg (.str "network:")
        logMsg (.str "config:")
        match nearConfigAt (env "NETWORK") with
        | none => logMsg (.str "wrong network")
        | some cfg => do
          let metaverseID := jsOr (argv 2) (.str "")
          let tokenMetadata ← callOp (.readFile (argv 7))
          RockNFTCollectionHolder.mintRock cfg (argv 6) (argv 5)
            metaverseID (parseIntJs none (argv 3))
            (parseIntJs none (argv 4)) (argv 8) tokenMetadata (argv 9))
    (fun e => logMsg (.str e))

/-- Entry script
migrations/rockNFTCollectionHolder/1.5_get_init_imo_fee.ts: config
guard, then a call to nft.getIMOInitFee, a method the class does not
declare, so the call throws a TypeError that the outer catch logs. -/
def script_rockNFTCH_1_5_get_init_imo_fee (env : String → JsVal)
    (argv : Nat → JsVal) : M Unit :=
  tryCatch
    (do logMsg (.str "network:")
        logMsg (.str "config:")
        match nearConfigAt (env "NETWORK") with
        | none => logMsg (.str "wrong network")
        | some _ =>
          raise "TypeError: nft.getIMOInitFee is not a function")
    (fun e => logMsg (.str e))

/-- Entry script migrations/rockNFTCollectionHolder/1.6_add_zone.ts:
config guard, resolve the zone parameters with their environment
fallbacks, then a call to nft.addZone, a method the class does not
declare, so the call throws a TypeError that the outer catch logs. -/
def script_rockNFTCH_1_6_add_zone (env : String → JsVal)
    (argv : Nat → JsVal) : M Unit :=
  tryCatch
    (do logMsg (.str "network:")
        logMsg (.str "config:")
        match nearConfigAt (env "NETWORK") with
        | none => logMsg (.str "wrong network")
        | some _ => do
          let _ := jsOr (argv 2) (.str "")
          let _ := jsOr (argv 3) (.str "")
          let _ := jsOr (argv 4) (.str "")
          let _ := jsOr (argv 5) (.str "")
          let _ := jsOr (argv 6) (.str "")
          let _ := argOrEnv argv env 7 "PUBLIC_PRICE" (.str "")
          let _ := argOrEnv argv env 8 "SIGNER_ACCOUNT" (.str "")
          let _ := argOrEnv argv env 9 "CONTRACT_ACCOUNT" (.str "")
          let _ := argOrEnv argv env 10 "METAVERSE_ID" (.str "")
          let _ := argOrEnv argv env 11 "DEPOSIT" (.str "")
          raise "TypeError: nft.addZone is not a function")
    (fun e => logMsg (.str e))

/-- Entry script migrations/environmentsNFT/1.0_createaccountcontract.ts:
config guard, timestamped contract account id, createAccount, log. -/
def script_envNFT_1_0_createaccountcontract (env : String → JsVal)
    (argv : Nat → JsVal) : M Unit :=
  tryCatch
    (do logMsg (.str "network:")
        logMsg (.str "config:")
        match nearConfigAt (env "NETWORK") with
        | none => logMsg (.str "wrong network")
        | some cfg => do
          let t ← nowOp
          let contractAccountId : JsVal := .str (jsToString (argv 2) ++
            "-contract-" ++ jsToString t ++ "-" ++
            jsToString (env "CREATOR_ACCOUNT_ID"))
          let _ ← EnvironmentNFT0.createAccount cfg (env "NETWORK") env
            contractAccountId (argv 3)
          logMsg (.str "Created contractAccountID"))
    (fun e => logMsg (.str e))

/-- Entry script migrations/environmentsNFT/1.0_deleteaccount.ts: literal
testnet guard before constructing the class, deleteAccount, log. -/
def script_envNFT_1_0_deleteaccount (env : String → JsVal)
    (argv : Nat → JsVal) : M Unit :=
  tryCatch
    (do if jsNeString (env "NETWORK") "testnet" then
          logMsg (.str "wrong network")
        else do
          logMsg (.str "network:")
          logMsg (.str "config:")
          EnvironmentNFT.deleteAccount testnetConfig env (argv 2)
          logMsg (.str "Deleted contractAccountID"))
    (fun e => logMsg (.str e))

/-- Entry script migrations/environmentsNFT/1.1_deploy.ts, first kept
version: literal testnet guard, then the flagless deploy with price 0 and
empty identities.  The seven-argument call matches the flagless class
versions; it is bound here to the one kept in the same source file,
whose init body is empty. -/
def script_envNFT_1_1_deploy (env : String → JsVal)
    (argv : Nat → JsVal) : M Unit :=
  tryCatch
    (do if jsNeString (env "NETWORK") "testnet" then
          logMsg (.str "wrong network")
        else do
          logMsg (.str "network:")
          logMsg (.str "config:")
          EnvironmentNFT1.deploy testnetConfig (argv 2) (argv 3)
            (.num 0) (.str "") (.str "") (.str "") (.str "")
          logMsg (.str "Deployed contract on contractAccountId:"))
    (fun e => logMsg (.str e))

/-- Entry script migrations/environmentsNFT/1.1_deploy.ts, second kept
version: literal testnet guard, token metadata read from the file named
by the fourth argument, admin, operator and treasury resolved with their
environment fallbacks, then the flagless deploy with price 0. -/
def script_envNFT_1_1_deploy_v2 (env : String → JsVal)
    (argv : Nat → JsVal) : M Unit :=
  tryCatch
    (do if jsNeString (env "NETWORK") "testnet" then
          logMsg (.str "wrong network")
        else do
          logMsg (.str "argv")
          logMsg (.str "network:")
          logMsg (.str "config:")
          let tokenMetadata ← callOp (.readFile (argv 4))
          let adminId := argOrEnv argv env 5 "ADMIN_ID" (.str "")
          let operatorId := argOrEnv argv env 6 "OPERATOR_ID" (.str "")
          let treasuryId := argOrEnv argv env 7 "TREASURY_ID" (.str "")
          EnvironmentNFT1.deploy testnetConfig (argv 2) (argv 3)
            (.num 0) tokenMetadata adminId operatorId treasuryId
          logMsg (.str "Deployed contract on contractAccountId:"))
    (fun e => logMsg (.str e))

/-- Entry script migrations/environmentsNFT/1.2_createNFT.ts: literal
testnet guard, then the argument check whose first conjunct is the
double-negated contract id, so a truthy contract id (or any falsy other
argument) throws invalid arguments; otherwise createNFT. -/
def script_envNFT_1_2_createNFT (env : String → JsVal)
    (argv : Nat → JsVal) : M Unit :=
  tryCatch
    (do if jsNeString (env "NETWORK") "testnet" then
          logMsg (.str "wrong network")
        else do
          logMsg (.str "network:")
          logMsg (.str "config:")
          logMsg (.str "args")
          if truthy (argv 2) || !truthy (argv 3) || !truthy (argv 4) ||
              !truthy (argv 5) then
            raise "invalid arguments"
          else do
            EnvironmentNFT0.createNFT testnetConfig (argv 2) (argv 3)
              (argv 4) (argv 5)
            logMsg (.str "Created nft"))
    (fun e => logMsg (.str e))

/-- Entry script migrations/environmentsNFT/1.3_user-mint.ts, first kept
version: literal testnet guard, argument check, userMint, log. -/
def script_envNFT_1_3_user_mint (env : String → JsVal)
    (argv : Nat → JsVal) : M Unit :=
  tryCatch
    (do if jsNeString (env "NETWORK") "testnet" then
          logMsg (.str "wrong network")
        else do
          logMsg (.str "network:")
          logMsg (.str "config:")
          logMsg (.str "args")
          if !truthy (argv 2) || !truthy (argv 3) then
            raise "invalid arguments"
          else do
            EnvironmentNFT.userMint testnetConfig (argv 2) (argv 3)
              (argv 4) (argv 5) (argv 6)
            logMsg (.str "User mint nft"))
    (fun e => logMsg (.str e))

/-- The get_max_supply script kept with 1.3_user-mint.ts: config guard,
argument check, the generic view invoker with method name
get_max_supply, log of the result. -/
def script_envNFT_get_max_supply (env : String → JsVal)
    (argv : Nat → JsVal) : M Unit :=
  tryCatch
    (do logMsg (.str "network:")
        logMsg (.str "config:")
        match nearConfigAt (env "NETWORK") with
        | none => logMsg (.str "wrong network")
        | some cfg => do
          logMsg (.str "args")
          if !truthy (argv 2) || !truthy (argv 3) then
            raise "invalid arguments"
          else do
            let result ← EnvironmentNFT.get cfg "get_max_supply"
              (argv 2) (argv 3)
            logMsg result)
    (fun e => logMsg (.str e))

/-- The testnet createAccount script kept with 1.3_user-mint.ts: literal
testnet guard, concatenated timestamped account id, createAccount. -/
def script_envNFT_createaccount_testnet (env : String → JsVal)
    (argv : Nat → JsVal) : M Unit :=
  tryCatch
    (do if jsNeString (env "NETWORK") "testnet" then
          logMsg (.str "wrong network")
        else do
          logMsg (.str "network:")
          logMsg (.str "config:")
          let t ← nowOp
          let contractAccountId : JsVal := .str (jsToString (argv 2) ++
            jsToString t ++ "-" ++ jsToString (env "CREATOR_ACCOUNT_ID"))
          let _ ← EnvironmentNFT.createAccount testnetConfig
            (env "NETWORK") env contractAccountId (argv 3)
          pure ())
    (fun e => logMsg (.str e))

/-- The account deletion script kept with 1.3_user-mint.ts: config guard,
deleteAccount, log. -/
def script_envNFT_deleteaccount (env : String → JsVal)
    (argv : Nat → JsVal) : M Unit :=
  tryCatch
    (do logMsg (.str "network:")
        logMsg (.str "config:")
        match nearConfigAt (env "NETWORK") with
        | none => logMsg (.str "wrong network")
        | some cfg => do
          EnvironmentNFT.deleteAccount cfg env (argv 2)
          logMsg (.str "Deleted contractAccountID"))
    (fun e => logMsg (.str e))

/-- Entry script migrations/environmentsNFT/3.1_set-operator.ts: literal
testnet guard, argument check, changeOperator, log. -/
def script_envNFT_3_1_set_operator (env : String → JsVal)
    (argv : Nat → JsVal) : M Unit :=
  tryCatch
    (do if jsNeString (env "NETWORK") "testnet" then
          logMsg (.str "wrong network")
        else do
          logMsg (.str "network:")
          logMsg (.str "config:")
          logMsg (.str "args")
          if !truthy (argv 2) || !truthy (argv 3) then
            raise "invalid arguments"
          else do
            EnvironmentNFT.changeOperator testnetConfig (argv 2) (argv 3)
              (argv 4)
            logMsg (.str "result"))
    (fun e => logMsg (.str e))

/-- Entry script migrations/environmentsNFT/3.2_set-treasury.ts: literal
testnet guard, argument check, changeTreasury, log. -/
def script_envNFT_3_2_set_treasury (env : String → JsVal)
    (argv : Nat → JsVal) : M Unit :=
  tryCatch
    (do if jsNeString (env "NETWORK") "testnet" then
          logMsg (.str "wrong network")
        else do
          logMsg (.str "network:")
          logMsg (.str "config:")
          logMsg (.str "args")
          if !truthy (argv 2) || !truthy (argv 3) then
            raise "invalid arguments"
          else do
            EnvironmentNFT.changeTreasury testnetConfig (argv 2) (argv 3)
              (argv 4)
            logMsg (.str "result"))
    (fun e => logMsg (.str e))

/-- Entry script migrations/environmentsNFT/3.7_update-royalties.ts:
literal testnet guard, royalty amount parsed without a radix, argument
check, updateRoyalties, log. -/
def script_envNFT_3_7_update_royalties (env : String → JsVal)
    (argv : Nat → JsVal) : M Unit :=
  tryCatch
    (do if jsNeString (env "NETWORK") "testnet" then
          logMsg (.str "wrong network")
        else do
          logMsg (.str "network:")
          logMsg (.str "config:")
          logMsg (.str "args")
          if !truthy (argv 2) || !truthy (argv 3) then
            raise "invalid arguments"
          else do
            EnvironmentNFT.updateRoyalties testnetConfig (argv 2)
              (argv 3) (argv 4) (parseIntJs none (argv 5))
            logMsg (.str "result"))
    (fun e => logMsg (.str e))

/-- The get_admin script kept with 3.7_update-royalties.ts: config
guard, argument check, the generic view invoker with method name
get_admin, log of the result. -/
def script_envNFT_get_admin (env : String → JsVal)
    (argv : Nat → JsVal) : M Unit :=
  tryCatch
    (do logMsg (.str "network:")
        logMsg (.str "config:")
        match nearConfigAt (env "NETWORK") with
        | none => logMsg (.str "wrong network")
        | some cfg => do
          logMsg (.str "args")
          if !truthy (argv 2) || !truthy (argv 3) then
            raise "invalid arguments"
          else do
            let result ← EnvironmentNFT.get cfg "get_admin" (argv 2)
              (argv 3)
            logMsg result)
    (fun e => logMsg (.str e))

/-- Entry script src/unnamed/part_004 (the nine-argument flagless deploy
script): literal testnet guard, token metadata and contract metadata read
from files, identities and prices resolved with their environment
fallbacks (max supply falling back to the TOKEN_PRICE variable and 0),
then the seven-parameter flagless deploy, whose JavaScript call ignores
the two extra arguments. -/
def script_part_004 (env : String → JsVal)
    (argv : Nat → JsVal) : M Unit :=
  tryCatch
    (do if jsNeString (env "NETWORK") "testnet" then
          logMsg (.str "wrong network")
        else do
          logMsg (.str "argv")
          logMsg (.str "network:")
          logMsg (.str "config:")
          let tokenMetadata ← callOp (.readFile (argv 4))
          logMsg (.str "env")
          let adminId := argOrEnv argv env 5 "ADMIN_ID" (.str "")
          let operatorId := argOrEnv argv env 6 "OPERATOR_ID" (.str "")
          let treasuryId := argOrEnv argv env 7 "TREASURY_ID" (.str "")
          let tokenPrice := argOrEnv argv env 8 "TOKEN_PRICE" (.num 0)
          let _maxSupply := argOrEnv argv env 9 "TOKEN_PRICE" (.num 0)
          let _contractMetadata ← callOp (.readFile (argv 10))
          EnvironmentNFT1.deploy testnetConfig (argv 2) (argv 3)
            tokenPrice tokenMetadata adminId operatorId treasuryId
          logMsg (.str "Deployed contract on contractAccountId:"))
    (fun e => logMsg (.str e))

/-- Entry script src/unnamed/part_005 (the createNft script): literal
testnet guard, token metadata read from a file, the max supply parsed
with parseInt without a radix, argument check, createNft, log. -/
def script_part_005 (env : String → JsVal)
    (argv : Nat → JsVal) : M Unit :=
  tryCatch
    (do if jsNeString (env "NETWORK") "testnet" then
          logMsg (.str "wrong network")
        else do
          logMsg (.str "network:")
          logMsg (.str "config:")
          let tokenMetadata ← callOp (.readFile (argv 6))
          logMsg (.str "args")
          if !truthy (argv 2) || !truthy (argv 3) then
            raise "invalid arguments"
          else do
            EnvironmentNFT.createNft testnetConfig (argv 2) (argv 3)
              (argv 4) (argv 5) tokenMetadata
              (parseIntJs none (argv 7)) (argv 8)
            logMsg (.str "Created nft"))
    (fun e => logMsg (.str e))

/-- Entry script src/unnamed/part_006 (the updateTokenMetadata script):
literal testnet guard, metadata read from a file, argument check,
updateTokenMetadata, log. -/
def script_part_006 (env : String → JsVal)
    (argv : Nat → JsVal) : M Unit :=
  tryCatch
    (do if jsNeString (env "NETWORK") "testnet" then
          logMsg (.str "wrong network")
        else do
          logMsg (.str "network:")
          logMsg (.str "config:")
          let tokenMetadata ← callOp (.readFile (argv 4))
          logMsg (.str "args")
          if !truthy (argv 2) || !truthy (argv 3) then
            raise "invalid arguments"
          else do
            EnvironmentNFT.updateTokenMetadata testnetConfig (argv 2)
              (argv 3) tokenMetadata
            logMsg (.str "result"))
    (fun e => logMsg (.str e))

/-- Entry script src/unnamed/part_007, first kept version (the
environment upgrade script): config guard, token metadata and contract
metadata read from files, identities resolved with their environment
fallbacks, then the flagged deploy with the run-init flag false. -/
def script_part_007 (env : String → JsVal)
    (argv : Nat → JsVal) : M Unit :=
  tryCatch
    (do logMsg (.str "network:")
        logMsg (.str "config:")
        match nearConfigAt (env "NETWORK") with
        | none => logMsg (.str "wrong network")
        | some cfg => do
          let tokenMetadata ← callOp (.readFile (argv 4))
          let adminId := argOrEnv argv env 5 "ADMIN_ID" (.str "")
          let operatorId := argOrEnv argv env 6 "OPERATOR_ID" (.str "")
          let treasuryId := argOrEnv argv env 7 "TREASURY_ID" (.str "")
          let _tokenPrice := argOrEnv argv env 8 "TOKEN_PRICE" (.num 0)
          let _maxSupply := argOrEnv argv env 9 "TOKEN_PRICE" (.num 0)
          let contractMetadata ← callOp (.readFile (argv 10))
          EnvironmentNFT.deploy cfg (argv 2) (argv 3) adminId operatorId
            treasuryId contractMetadata false
          logMsg (.str "Upgraded contract on contractAccountId:"))
    (fun e => logMsg (.str e))

/-- The updateMintedTokenMetadata script kept with src/unnamed/part_007:
literal testnet guard, metadata read from a file, argument check,
updateMintedTokenMetadata, log. -/
def script_part_007_update_minted (env : String → JsVal)
    (argv : Nat → JsVal) : M Unit :=
  tryCatch
    (do if jsNeString (env "NETWORK") "testnet" then
          logMsg (.str "wrong network")
        else do
          logMsg (.str "network:")
          logMsg (.str "config:")
          let tokenMetadata ← callOp (.readFile (argv 5))
          logMsg (.str "args")
          if !truthy (argv 2) || !truthy (argv 3) then
            raise "invalid arguments"
          else do
            EnvironmentNFT.updateMintedTokenMetadata testnetConfig
              (argv 2) (argv 3) (argv 4) tokenMetadata
            logMsg (.str "result"))
    (fun e => logMsg (.str e))

/-- Entry script src/unnamed/part_008 (the updateTokenPrice script):
literal testnet guard, argument check, updateTokenPrice, log. -/
def script_part_008 (env : String → JsVal)
    (argv : Nat → JsVal) : M Unit :=
  tryCatch
    (do if jsNeString (env "NETWORK") "testnet" then
          logMsg (.str "wrong network")
        else do
          logMsg (.str "network:")
          logMsg (.str "config:")
          logMsg (.str "args")
          if !truthy (argv 2) || !truthy (argv 3) then
            raise "invalid arguments"
          else do
            EnvironmentNFT.updateTokenPrice testnetConfig (argv 2)
              (argv 3) (argv 4)
            logMsg (.str "result"))
    (fun e => logMsg (.str e))

/-- Entry script src/unnamed/part_009 (the updateContractMetadata
script): literal testnet guard, metadata read from a file, argument
check, updateContractMetadata, log. -/
def script_part_009 (env : String → JsVal)
    (argv : Nat → JsVal) : M Unit :=
  tryCatch
    (do if jsNeString (env "NETWORK") "testnet" then
          logMsg (.str "wrong network")
        else do
          logMsg (.str "network:")
          logMsg (.str "config:")
          let contractMetadata ← callOp (.readFile (argv 4))
          logMsg (.str "args")
          if !truthy (argv 2) || !truthy (argv 3) then
            raise "invalid arguments"
          else do
            EnvironmentNFT.updateContractMetadata testnetConfig (argv 2)
              (argv 3) contractMetadata
            logMsg (.str "result"))
    (fun e => logMsg (.str e))

/-- Entry script src/unnamed/part_010 (the unawaited account deletion
script): literal testnet guard inside the try; the deleteAccount call is
not awaited, so its promise runs after the try block and a rejection in
it is not caught by the script. -/
def script_part_010 (env : String → JsVal)
    (argv : Nat → JsVal) : M Unit := do
  if jsNeString (env "NETWORK") "testnet" then
    logMsg (.str "wrong network")
  else do
    logMsg (.str "network:")
    logMsg (.str "config:")
    EnvironmentNFT.deleteAccount testnetConfig env (argv 2)

/-- Entry script src/unnamed/part_011 (the updateRoyalties script with an
nft type id): literal testnet guard, royalty amount parsed without a
radix, argument check, the collection-holder updateRoyalties shape with
nft_type_id, log. -/
def script_part_011 (env : String → JsVal)
    (argv : Nat → JsVal) : M Unit :=
  tryCatch
    (do if jsNeString (env "NETWORK") "testnet" then
          logMsg (.str "wrong network")
        else do
          logMsg (.str "network:")
          logMsg (.str "config:")
          logMsg (.str "args")
          if !truthy (argv 2) || !truthy (argv 3) then
            raise "invalid arguments"
          else do
            RockNFTCollectionHolder.updateRoyalties testnetConfig
              (argv 2) (argv 3) (argv 4) (argv 5)
              (parseIntJs none (argv 6))
            logMsg (.str "result"))
    (fun e => logMsg (.str e))

/-- Every entry script embedded from the repository, as one list: a
script maps the process environment and the argument vector to a program
in M. -/
def allScripts :
    List ((String → JsVal) → (Nat → JsVal) → M Unit) :=
  [script_rockNFT_1_0_createaccountcontract,
   script_rockNFT_1_1_deploy,
   script_rockNFT_1_4_mint_rock,
   script_rockNFT_1_5_get_init_imo_fee,
   script_part_000,
   script_part_001,
   script_part_002,
   script_rockNFTCH_1_0_createaccountcontract,
   script_rockNFTCH_initMetaverse,
   script_rockNFTCH_1_0_deleteaccountcontract,
   script_part_003,
   script_rockNFTCH_1_3_get_zone_info,
   script_rockNFTCH_1_4_mint_rock,
   script_rockNFTCH_1_5_get_init_imo_fee,
   script_rockNFTCH_1_6_add_zone,
   script_envNFT_1_0_createaccountcontract,
   script_envNFT_1_0_deleteaccount,
   script_envNFT_1_1_deploy,
   script_envNFT_1_1_deploy_v2,
   script_envNFT_1_2_createNFT,
   script_envNFT_1_3_user_mint,
   script_envNFT_get_max_supply,
   script_envNFT_createaccount_testnet,
   script_envNFT_deleteaccount,
   script_envNFT_3_1_set_operator,
   script_envNFT_3_2_set_treasury,
   script_envNFT_3_7_update_royalties,
   script_envNFT_get_admin,
   script_part_004,
   script_part_005,
   script_part_006,
   script_part_007,
   script_part_007_update_minted,
   script_part_008,
   script_part_009,
   script_part_010,
   script_part_011]

/-- A world in which every operation resolves (to undefined). -/
def okW : W := fun _ => .ok .undefined

/-- A world in which every proxy contract call to the named method throws
and every other operation resolves. -/
def failCallW (m : String) : W := fun e =>
  match e with
  | .contractCall _ _ _ _ name _ _ _ =>
    if name == m then .error "boom" else .ok .undefined
  | _ => .ok .undefined

/-- A world in which connecting throws and every other operation
resolves. -/
def failConnectW : W := fun e =>
  match e with
  | .connect _ => .error "connfail"
  | _ => .ok .undefined

/-- A world in which loading any account throws and every other operation
resolves. -/
def failLoadW : W := fun e =>
  match e with
  | .loadAccount _ => .error "loadfail"
  | _ => .ok .undefined

/-- A world in which every functionCall submission throws and every other
operation resolves. -/
def failFnCallW : W := fun e =>
  match e with
  | .functionCall _ _ _ _ _ => .error "fnfail"
  | _ => .ok .undefined

/-- Whether the trace contains a console.log of the given string. -/
def hasLogStr (s : String) (t : List Ev) : Bool :=
  t.any fun e =>
    match e with
    | .log (.str v) => v == s
    | _ => false

/-- Whether an event replaces the code of an account. -/
def Ev.isDeploy : Ev → Bool
  | .deployContract _ _ => true
  | _ => false

/-- Whether the trace contains a code-replacement call. -/
def hasDeploy (t : List Ev) : Bool :=
  t.any Ev.isDeploy

/-- The argument payload of the first proxy contract call to the named
method in the trace, if any. -/
def callArgsOf (m : String) (t : List Ev) : Option JsVal :=
  t.findSome? fun e =>
    match e with
    | .contractCall _ _ _ _ name args _ _ =>
      if name == m then some args else none
    | _ => none

/-- The attached deposit of the first proxy contract call to the named
method in the trace, if any. -/
def callDepositOf (m : String) (t : List Ev) : Option JsVal :=
  t.findSome? fun e =>
    match e with
    | .contractCall _ _ _ _ name _ _ d =>
      if name == m then some d else none
    | _ => none

/-- Whether an outcome is a success. -/
def Except.isOkB {ε α : Type} : Except ε α → Bool
  | .ok _ => true
  | .error _ => false

/-- A world in which deleting any account throws and every other
operation resolves. -/
def failDelW : W := fun e =>
  match e with
  | .deleteAccountCall _ _ => .error "delfail"
  | _ => .ok .undefined

/-- A process environment with only NETWORK set, to testnet. -/
def envTestnet : String → JsVal := fun n =>
  if n == "NETWORK" then .str "testnet" else .undefined

/-- An argument vector for the mint script with a hex-prefixed zone
index. -/
def argvMintHex : Nat → JsVal := fun i =>
  if i == 2 then .str "m" else if i == 3 then .str "0x10" else .str "x"

/-- An argument vector for the mint script with a non-numeric zone
index. -/
def argvMintBad : Nat → JsVal := fun i =>
  if i == 2 then .str "m" else if i == 3 then .str "abc" else .str "x"

/-- An argument vector for the rockNFT deploy script with a non-numeric
rock purchase fee at index 8. -/
def argvDeployBad : Nat → JsVal := fun i =>
  if i == 8 then .str "abc" else .str "x"

/-- A trace invariant: every event the program can emit, under any world,
satisfies the predicate. -/
def TraceAll {α : Type} (P : Ev → Bool) (x : M α) : Prop :=
  ∀ w : W, ((x w).1).all P = true

/-- The predicate established by flag-false deploys: the event is not a
proxy call to new. -/
def notNew (e : Ev) : Bool := !(Ev.isCallTo "new" e)

theorem bind_eq_M_bind {α β : Type} :
    @Bind.bind M _ α β = M.bind := rfl

theorem pure_eq_M_pure {α : Type} :
    @Pure.pure M _ α = M.pure := rfl

theorem bind_callOp_apply {β : Type} (e : Ev) (f : JsVal → M β) (w : W) :
    M.bind (callOp e) f w =
      match w e with
      | .ok v => ((e :: (f v w).1), (f v w).2)
      | .error s => ([e], .error s) := by
  cases h : w e <;> simp [M.bind, callOp, h]

theorem bind_logMsg_apply {β : Type} (v : JsVal) (f : Unit → M β)
    (w : W) :
    M.bind (logMsg v) f w = ((.log v) :: (f () w).1, (f () w).2) := by
  simp [M.bind, logMsg]

theorem bind_pure_apply {α β : Type} (a : α) (f : α → M β) (w : W) :
    M.bind (M.pure a) f w = f a w := by
  simp [M.bind, M.pure]

theorem bind_raise_apply {α β : Type} (s : String) (f : α → M β)
    (w : W) :
    M.bind (raise s) f w = ([], .error s) := by
  simp [M.bind, raise]

theorem bind_assoc_apply {α β γ : Type} (x : M α) (f : α → M β)
    (g : β → M γ) (w : W) :
    M.bind (M.bind x f) g w = M.bind x (fun a => M.bind (f a) g) w := by
  simp only [M.bind]
  cases hx : x w with
  | mk t r =>
    cases r with
    | ok a =>
      cases hf : f a w with
      | mk t2 r2 =>
        cases r2 <;> simp [hf]
    | error e => rfl

theorem tryCatch_apply {α : Type} (x : M α) (h : String → M α) (w : W) :
    tryCatch x h w =
      match x w with
      | (t, .ok a) => (t, .ok a)
      | (t, .error e) => (t ++ (h e w).1, (h e w).2) := rfl

theorem traceAll_bind {α β : Type} {P : Ev → Bool} {x : M α}
    {f : α → M β} (hx : TraceAll P x) (hf : ∀ a, TraceAll P (f a)) :
    TraceAll P (M.bind x f) := by
  intro w
  have ht := hx w
  simp only [M.bind]
  rcases hx2 : x w with ⟨t, r⟩
  rw [hx2] at ht
  cases r with
  | ok a =>
    simp only [List.all_append, ht, Bool.true_and]
    exact hf a w
  | error e => exact ht

theorem traceAll_callOp {P : Ev → Bool} {e : Ev} (h : P e = true) :
    TraceAll P (callOp e) := by
  intro w
  simp [callOp, h]

theorem traceAll_logMsg {P : Ev → Bool} {v : JsVal}
    (h : P (.log v) = true) : TraceAll P (logMsg v) := by
  intro w
  simp [logMsg, h]

theorem traceAll_pure {α : Type} {P : Ev → Bool} {a : α} :
    TraceAll P (M.pure a) := by
  intro w
  simp [M.pure]

theorem traceAll_raise {α : Type} {P : Ev → Bool} {s : String} :
    TraceAll P (raise s : M α) := by
  intro w
  simp [raise]

theorem traceAll_tryCatch {α : Type} {P : Ev → Bool} {x : M α}
    {h : String → M α} (hx : TraceAll P x)
    (hh : ∀ e, TraceAll P (h e)) : TraceAll P (tryCatch x h) := by
  intro w
  have ht := hx w
  rw [tryCatch_apply]
  rcases hx2 : x w with ⟨t, r⟩
  rw [hx2] at ht
  cases r with
  | ok a => exact ht
  | error e =>
    simp only [List.all_append, ht, Bool.true_and]
    exact hh e w

theorem escalates_tryCatch_handler {α : Type} (x : M α)
    (h : String → M α) (w : W)
    (hh : ∀ e, escalates (h e) w = false) :
    escalates (tryCatch x h) w = false := by
  unfold escalates resultOf
  rw [tryCatch_apply]
  rcases hx : x w with ⟨t, r⟩
  cases r with
  | ok a => rfl
  | error e =>
    have := hh e
    unfold escalates resultOf at this
    simpa using this

theorem escalates_bind_callOp {β : Type} (e : Ev) (f : JsVal → M β)
    (w : W) (v : JsVal) (hv : w e = .ok v) :
    escalates (M.bind (callOp e) f) w = escalates (f v) w := by
  unfold escalates resultOf
  simp [M.bind, callOp, hv]

theorem escalates_bind_logMsg {β : Type} (v : JsVal) (f : Unit → M β)
    (w : W) :
    escalates (M.bind (logMsg v) f) w = escalates (f ()) w := rfl

theorem escalates_bind_callOp_match {β : Type} (e : Ev)
    (f : JsVal → M β) (w : W) :
    escalates (M.bind (callOp e) f) w =
      match w e with
      | .ok v => escalates (f v) w
      | .error _ => true := by
  unfold escalates resultOf
  simp only [M.bind, callOp]
  cases h : w e <;> simp

theorem deposits_setAdmin (cfg : Config) (a b c : JsVal) :
    TraceAll Ev.changeDepositIsOne (EnvironmentNFT.setAdmin cfg a b c) :=
  traceAll_bind (traceAll_callOp rfl) (fun _ =>
    traceAll_tryCatch
      (traceAll_bind (traceAll_callOp rfl) (fun _ =>
        traceAll_bind (traceAll_callOp rfl) (fun _ => traceAll_pure)))
      (fun _ => traceAll_logMsg rfl))

theorem deposits_changeOperator (cfg : Config) (a b c : JsVal) :
    TraceAll Ev.changeDepositIsOne
      (EnvironmentNFT.changeOperator cfg a b c) :=
  traceAll_bind (traceAll_callOp rfl) (fun _ =>
    traceAll_tryCatch
      (traceAll_bind (traceAll_callOp rfl) (fun _ =>
        traceAll_bind (traceAll_callOp rfl) (fun _ => traceAll_pure)))
      (fun _ => traceAll_logMsg rfl))

theorem deposits_changeTreasury (cfg : Config) (a b c : JsVal) :
    TraceAll Ev.changeDepositIsOne
      (EnvironmentNFT.changeTreasury cfg a b c) :=
  traceAll_bind (traceAll_callOp rfl) (fun _ =>
    traceAll_tryCatch
      (traceAll_bind (traceAll_callOp rfl) (fun _ =>
        traceAll_bind (traceAll_callOp rfl) (fun _ => traceAll_pure)))
      (fun _ => traceAll_logMsg rfl))

theorem deposits_updateTokenPrice (cfg : Config) (a b c : JsVal) :
    TraceAll Ev.changeDepositIsOne
      (EnvironmentNFT.updateTokenPrice cfg a b c) :=
  traceAll_bind (traceAll_callOp rfl) (fun _ =>
    traceAll_tryCatch
      (traceAll_bind (traceAll_callOp rfl) (fun _ =>
        traceAll_bind (traceAll_callOp rfl) (fun _ => traceAll_pure)))
      (fun _ => traceAll_logMsg rfl))

theorem deposits_updateTokenMetadata (cfg : Config) (a b c : JsVal) :
    TraceAll Ev.changeDepositIsOne
      (EnvironmentNFT.updateTokenMetadata cfg a b c) :=
  traceAll_bind (traceAll_callOp rfl) (fun _ =>
    traceAll_tryCatch
      (traceAll_bind (traceAll_callOp rfl) (fun _ =>
        traceAll_bind (traceAll_callOp rfl) (fun _ => traceAll_pure)))
      (fun _ => traceAll_logMsg rfl))

theorem deposits_updateMintedTokenMetadata (cfg : Config)
    (a b c d : JsVal) :
    TraceAll Ev.changeDepositIsOne
      (EnvironmentNFT.updateMintedTokenMetadata cfg a b c d) :=
  traceAll_bind (traceAll_callOp rfl) (fun _ =>
    traceAll_tryCatch
      (traceAll_bind (traceAll_callOp rfl) (fun _ =>
        traceAll_bind (traceAll_callOp rfl) (fun _ => traceAll_pure)))
      (fun _ => traceAll_logMsg rfl))

theorem deposits_updateContractMetadata (cfg : Config) (a b c : JsVal) :
    TraceAll Ev.changeDepositIsOne
      (EnvironmentNFT.updateContractMetadata cfg a b c) :=
  traceAll_bind (traceAll_callOp rfl) (fun _ =>
    traceAll_tryCatch
      (traceAll_bind (traceAll_callOp rfl) (fun _ =>
        traceAll_bind (traceAll_callOp rfl) (fun _ => traceAll_pure)))
      (fun _ => traceAll_logMsg rfl))

theorem deposits_updateRoyalties (cfg : Config) (a b c d : JsVal) :
    TraceAll Ev.changeDepositIsOne
      (EnvironmentNFT.updateRoyalties cfg a b c d) :=
  traceAll_bind (traceAll_callOp rfl) (fun _ =>
    traceAll_tryCatch
      (traceAll_bind (traceAll_callOp rfl) (fun _ =>
        traceAll_bind (traceAll_callOp rfl) (fun _ =>
          traceAll_logMsg rfl)))
      (fun _ => traceAll_logMsg rfl))

theorem deposits_updateRoyaltiesCH (cfg : Config) (a b c d e : JsVal) :
    TraceAll Ev.changeDepositIsOne
      (RockNFTCollectionHolder.updateRoyalties cfg a b c d e) :=
  traceAll_bind (traceAll_callOp rfl) (fun _ =>
    traceAll_tryCatch
      (traceAll_bind (traceAll_callOp rfl) (fun _ =>
        traceAll_bind (traceAll_callOp rfl) (fun _ =>
          traceAll_logMsg rfl)))
      (fun _ => traceAll_logMsg rfl))

theorem noNew_deploy_env (cfg : Config) (wf ca a o t m : JsVal) :
    TraceAll notNew (EnvironmentNFT.deploy cfg wf ca a o t m false) :=
  traceAll_bind (traceAll_logMsg rfl) (fun _ =>
    traceAll_bind (traceAll_callOp rfl) (fun _ =>
      traceAll_bind (traceAll_logMsg rfl) (fun _ =>
        traceAll_tryCatch
          (traceAll_bind (traceAll_callOp rfl) (fun _ =>
            traceAll_bind (traceAll_callOp rfl) (fun _ =>
              traceAll_bind (traceAll_callOp rfl) (fun _ =>
                traceAll_bind (traceAll_logMsg rfl) (fun _ =>
                  traceAll_pure)))))
          (fun _ => traceAll_logMsg rfl))))

theorem noNew_deploy_CH (cfg : Config)
    (wf ca a o t fee pf hs m : JsVal) :
    TraceAll notNew
      (RockNFTCollectionHolder.deploy cfg wf ca a o t fee pf hs m
        false) :=
  traceAll_bind (traceAll_callOp rfl) (fun _ =>
    traceAll_tryCatch
      (traceAll_bind (traceAll_callOp rfl) (fun _ =>
        traceAll_bind (traceAll_callOp rfl) (fun _ =>
          traceAll_bind (traceAll_callOp rfl) (fun _ =>
            traceAll_bind (traceAll_logMsg rfl) (fun _ =>
              traceAll_pure)))))
      (fun _ => traceAll_logMsg rfl))

theorem noNew_deploy_RockNFT (cfg : Config)
    (wf ca a o t fee pf m : JsVal) :
    TraceAll notNew
      (RockNFT.deploy cfg wf ca a o t fee pf m false) :=
  traceAll_bind (traceAll_callOp rfl) (fun _ =>
    traceAll_tryCatch
      (traceAll_bind (traceAll_callOp rfl) (fun _ =>
        traceAll_bind (traceAll_callOp rfl) (fun _ =>
          traceAll_bind (traceAll_callOp rfl) (fun _ =>
            traceAll_bind (traceAll_logMsg rfl) (fun _ =>
              traceAll_pure)))))
      (fun _ => traceAll_logMsg rfl))

theorem noNew_deploy_env1 (cfg : Config) (wf ca p tm a o t : JsVal) :
    TraceAll notNew (EnvironmentNFT1.deploy cfg wf ca p tm a o t) :=
  traceAll_bind (traceAll_logMsg rfl) (fun _ =>
    traceAll_bind (traceAll_callOp rfl) (fun _ =>
      traceAll_bind (traceAll_logMsg rfl) (fun _ =>
        traceAll_tryCatch
          (traceAll_bind (traceAll_callOp rfl) (fun _ =>
            traceAll_bind (traceAll_callOp rfl) (fun _ =>
              traceAll_bind (traceAll_callOp rfl) (fun _ =>
                traceAll_bind (traceAll_logMsg rfl) (fun _ =>
                  traceAll_pure)))))
          (fun _ => traceAll_logMsg rfl))))

theorem noNew_deploy_stub (cfg : Config) (wasm acct : JsVal) :
    TraceAll notNew (EnvironmentNFTstub.deploy cfg wasm acct) :=
  traceAll_bind (traceAll_logMsg rfl) (fun _ =>
    traceAll_bind (traceAll_logMsg rfl) (fun _ =>
      traceAll_bind (traceAll_callOp rfl) (fun _ => traceAll_pure)))

theorem hasCallTo_new_eq_false {t : List Ev}
    (h : t.all notNew = true) : hasCallTo "new" t = false := by
  cases hany : t.any (Ev.isCallTo "new") with
  | false => exact hany
  | true =>
    rcases List.any_eq_true.mp hany with ⟨e, he, hP⟩
    have hn := List.all_eq_true.mp h e he
    rw [notNew, hP] at hn
    simp at hn

/-- C1: the run-init flag decides initialization for the flagged deploy
variants, and the flagless variant kept in environmentNFT.ts issues no
initialization call; but the claim as stated fails for the flagless
variant kept in 1.0_createaccountcontract.ts, which issues new
unconditionally (see the counterexample).  This theorem is the amended
claim: for every flagged deploy variant, with the flag false no new call
is ever issued, under any world, and the same holds for the flagless
variant whose init body is empty and for the earliest stub variant; with
the flag true and a resolving world, the new call is issued; and with the
flag false, on a resolving world, the full trace is exactly the logs,
the connection, the account load, the binary read from disk and the
binary-replacement call, nothing else. -/
theorem C1_run_init_flag :
    (∀ (cfg : Config) (wf ca a o t m : JsVal) (w : W),
      hasCallTo "new"
        (traceOf (EnvironmentNFT.deploy cfg wf ca a o t m false) w)
        = false)
    ∧ (∀ (cfg : Config) (wf ca a o t fee pf hs m : JsVal) (w : W),
      hasCallTo "new"
        (traceOf
          (RockNFTCollectionHolder.deploy cfg wf ca a o t fee pf hs m
            false) w) = false)
    ∧ (∀ (cfg : Config) (wf ca a o t fee pf m : JsVal) (w : W),
      hasCallTo "new"
        (traceOf (RockNFT.deploy cfg wf ca a o t fee pf m false) w)
        = false)
    ∧ (∀ (cfg : Config) (wf ca p tm a o t : JsVal) (w : W),
      hasCallTo "new"
        (traceOf (EnvironmentNFT1.deploy cfg wf ca p tm a o t) w)
        = false)
    ∧ (∀ (cfg : Config) (wasm acct : JsVal) (w : W),
      hasCallTo "new"
        (traceOf (EnvironmentNFTstub.deploy cfg wasm acct) w) = false)
    ∧ hasCallTo "new"
        (traceOf (EnvironmentNFT.deploy testnetConfig (.str "c.wasm")
          (.str "demo-contract") (.str "alice") (.str "bob")
          (.str "carol") (.str "meta") true) okW) = true
    ∧ hasCallTo "new"
        (traceOf (RockNFTCollectionHolder.deploy testnetConfig
          (.str "c.wasm") (.str "demo-contract") (.str "alice")
          (.str "bob") (.str "carol") (.str "1") (.num 2) (.num 3)
          (.str "meta") true) okW) = true
    ∧ traceOf (EnvironmentNFT.deploy testnetConfig (.str "c.wasm")
        (.str "demo-contract") (.str "alice") (.str "bob")
        (.str "carol") (.str "meta") false) okW =
      [.log (.str "wasm: "), .connect testnetConfig,
       .log (.str "contractAccountID:"),
       .loadAccount (.str "demo-contract"), .readFile (.str "c.wasm"),
       .deployContract (.str "demo-contract") .undefined,
       .log (.str "deploy on:")] := by
  refine ⟨?_, ?_, ?_, ?_, ?_, ?_, ?_, ?_⟩
  · intro cfg wf ca a o t m w
    exact hasCallTo_new_eq_false (noNew_deploy_env cfg wf ca a o t m w)
  · intro cfg wf ca a o t fee pf hs m w
    exact hasCallTo_new_eq_false
      (noNew_deploy_CH cfg wf ca a o t fee pf hs m w)
  · intro cfg wf ca a o t fee pf m w
    exact hasCallTo_new_eq_false
      (noNew_deploy_RockNFT cfg wf ca a o t fee pf m w)
  · intro cfg wf ca p tm a o t w
    exact hasCallTo_new_eq_false
      (noNew_deploy_env1 cfg wf ca p tm a o t w)
  · intro cfg wasm acct w
    exact hasCallTo_new_eq_false (noNew_deploy_stub cfg wasm acct w)
  · rfl
  · rfl
  · rfl

/-- C1 counterexample: the flagless deploy variant kept in
1.0_createaccountcontract.ts issues both the binary-replacement call and
the initialization call new, unconditionally, on a resolving world, so
the claim that every flagless variant issues only the binary-replacement
call is false. -/
theorem C1_counterexample :
    hasDeploy
      (traceOf (EnvironmentNFT0.deploy testnetConfig (.str "c.wasm")
        (.str "demo-contract") (.num 0) (.str "tm") (.str "alice")
        (.str "bob") (.str "carol")) okW) = true
    ∧ hasCallTo "new"
      (traceOf (EnvironmentNFT0.deploy testnetConfig (.str "c.wasm")
        (.str "demo-contract") (.num 0) (.str "tm") (.str "alice")
        (.str "bob") (.str "carol")) okW) = true := ⟨rfl, rfl⟩

/-- C10: every administrative change-method invoker attaches the
hard-coded one-yoctoNEAR deposit string 1 to its remote call, for all
inputs and worlds, with no caller-supplied override, and on a resolving
world the issued call carries exactly that deposit. -/
theorem C10_admin_deposit_one :
    (∀ (cfg : Config) (a b c : JsVal) (w : W),
      allChangeDepositsOne
        (traceOf (EnvironmentNFT.setAdmin cfg a b c) w) = true)
    ∧ (∀ (cfg : Config) (a b c : JsVal) (w : W),
      allChangeDepositsOne
        (traceOf (EnvironmentNFT.changeOperator cfg a b c) w) = true)
    ∧ (∀ (cfg : Config) (a b c : JsVal) (w : W),
      allChangeDepositsOne
        (traceOf (EnvironmentNFT.changeTreasury cfg a b c) w) = true)
    ∧ (∀ (cfg : Config) (a b c : JsVal) (w : W),
      allChangeDepositsOne
        (traceOf (EnvironmentNFT.updateTokenPrice cfg a b c) w) = true)
    ∧ (∀ (cfg : Config) (a b c : JsVal) (w : W),
      allChangeDepositsOne
        (traceOf (EnvironmentNFT.updateTokenMetadata cfg a b c) w)
        = true)
    ∧ (∀ (cfg : Config) (a b c d : JsVal) (w : W),
      allChangeDepositsOne
        (traceOf (EnvironmentNFT.updateMintedTokenMetadata cfg a b c d)
          w) = true)
    ∧ (∀ (cfg : Config) (a b c : JsVal) (w : W),
      allChangeDepositsOne
        (traceOf (EnvironmentNFT.updateContractMetadata cfg a b c) w)
        = true)
    ∧ (∀ (cfg : Config) (a b c d : JsVal) (w : W),
      allChangeDepositsOne
        (traceOf (EnvironmentNFT.updateRoyalties cfg a b c d) w) = true)
    ∧ (∀ (cfg : Config) (a b c d e : JsVal) (w : W),
      allChangeDepositsOne
        (traceOf (RockNFTCollectionHolder.updateRoyalties cfg a b c d e)
          w) = true)
    ∧ callDepositOf "change_admin"
        (traceOf (EnvironmentNFT.setAdmin testnetConfig (.str "c")
          (.str "s") (.str "x")) okW) = some (.str "1")
    ∧ callDepositOf "change_operator"
        (traceOf (EnvironmentNFT.changeOperator testnetConfig (.str "c")
          (.str "s") (.str "x")) okW) = some (.str "1")
    ∧ callDepositOf "change_treasury"
        (traceOf (EnvironmentNFT.changeTreasury testnetConfig (.str "c")
          (.str "s") (.str "x")) okW) = some (.str "1")
    ∧ callDepositOf "update_token_price"
        (traceOf (EnvironmentNFT.updateTokenPrice testnetConfig
          (.str "c") (.str "s") (.str "2")) okW) = some (.str "1")
    ∧ callDepositOf "update_token_metadata"
        (traceOf (EnvironmentNFT.updateTokenMetadata testnetConfig
          (.str "c") (.str "s") (.str "x")) okW) = some (.str "1")
    ∧ callDepositOf "update_minted_token_metadata"
        (traceOf (EnvironmentNFT.updateMintedTokenMetadata testnetConfig
          (.str "c") (.str "s") (.str "t1") (.str "x")) okW)
        = some (.str "1")
    ∧ callDepositOf "update_contract_metadata"
        (traceOf (EnvironmentNFT.updateContractMetadata testnetConfig
          (.str "c") (.str "s") (.str "x")) okW) = some (.str "1")
    ∧ callDepositOf "update_royalties"
        (traceOf (EnvironmentNFT.updateRoyalties testnetConfig
          (.str "c") (.str "s") (.str "r") (.num 5)) okW)
        = some (.str "1")
    ∧ callDepositOf "update_royalties"
        (traceOf (RockNFTCollectionHolder.updateRoyalties testnetConfig
          (.str "c") (.str "s") (.str "n") (.str "r") (.num 5)) okW)
        = some (.str "1") := by
  refine ⟨?_, ?_, ?_, ?_, ?_, ?_, ?_, ?_, ?_, rfl, rfl, rfl, rfl, rfl,
    rfl, rfl, rfl, rfl⟩
  · intro cfg a b c w
    exact deposits_setAdmin cfg a b c w
  · intro cfg a b c w
    exact deposits_changeOperator cfg a b c w
  · intro cfg a b c w
    exact deposits_changeTreasury cfg a b c w
  · intro cfg a b c w
    exact deposits_updateTokenPrice cfg a b c w
  · intro cfg a b c w
    exact deposits_updateTokenMetadata cfg a b c w
  · intro cfg a b c d w
    exact deposits_updateMintedTokenMetadata cfg a b c d w
  · intro cfg a b c w
    exact deposits_updateContractMetadata cfg a b c w
  · intro cfg a b c d w
    exact deposits_updateRoyalties cfg a b c d w
  · intro cfg a b c d e w
    exact deposits_updateRoyaltiesCH cfg a b c d e w

theorem nearConfigAt_none_ne_testnet {v : JsVal}
    (h : nearConfigAt v = none) : jsNeString v "testnet" = true := by
  cases v with
  | str s =>
    simp only [jsNeString, bne_iff_ne, ne_eq]
    rintro rfl
    simp [nearConfigAt, nearConfig] at h
  | num n => rfl
  | nan => rfl
  | bool b => rfl
  | undefined => rfl
  | obj f => rfl

/-- C2: for every embedded entry script, when the network identifier has
no entry in the static network-to-profile mapping, the run emits nothing
but console.log events under any world: the script aborts at its guard
(either the falsy-config check or the literal testnet check) before any
account, contract, file or key-store operation. -/
theorem C2_network_guard :
    ∀ s ∈ allScripts,
      ∀ (env : String → JsVal) (argv : Nat → JsVal) (w : W),
        nearConfigAt (env "NETWORK") = none →
        onlyLogs (traceOf (s env argv) w) = true := by
  intro s hs env argv w h
  have hne : jsNeString (env "NETWORK") "testnet" = true :=
    nearConfigAt_none_ne_testnet h
  simp only [allScripts, List.mem_cons, List.not_mem_nil, or_false]
    at hs
  rcases hs with rfl|rfl|rfl|rfl|rfl|rfl|rfl|rfl|rfl|rfl|rfl|rfl|rfl|
    rfl|rfl|rfl|rfl|rfl|rfl|rfl|rfl|rfl|rfl|rfl|rfl|rfl|rfl|rfl|rfl|
    rfl|rfl|rfl|rfl|rfl|rfl|rfl|rfl <;>
    simp [script_rockNFT_1_0_createaccountcontract,
      script_rockNFT_1_1_deploy, script_rockNFT_1_4_mint_rock,
      script_rockNFT_1_5_get_init_imo_fee, script_part_000,
      script_part_001, script_part_002,
      script_rockNFTCH_1_0_createaccountcontract,
      script_rockNFTCH_initMetaverse,
      script_rockNFTCH_1_0_deleteaccountcontract, script_part_003,
      script_rockNFTCH_1_3_get_zone_info, script_rockNFTCH_1_4_mint_rock,
      script_rockNFTCH_1_5_get_init_imo_fee,
      script_rockNFTCH_1_6_add_zone,
      script_envNFT_1_0_createaccountcontract,
      script_envNFT_1_0_deleteaccount, script_envNFT_1_1_deploy,
      script_envNFT_1_1_deploy_v2, script_envNFT_1_2_createNFT,
      script_envNFT_1_3_user_mint, script_envNFT_get_max_supply,
      script_envNFT_createaccount_testnet, script_envNFT_deleteaccount,
      script_envNFT_3_1_set_operator, script_envNFT_3_2_set_treasury,
      script_envNFT_3_7_update_royalties, script_envNFT_get_admin,
      script_part_004, script_part_005, script_part_006,
      script_part_007, script_part_007_update_minted, script_part_008,
      script_part_009, script_part_010, script_part_011,
      traceOf, bind_eq_M_bind, pure_eq_M_pure, bind_logMsg_apply,
      bind_pure_apply, tryCatch_apply, h, hne, onlyLogs, Ev.isLog,
      logMsg, M.pure]

/-- C2 witness: the deploy script with an unset NETWORK variable, under
the all-resolving world, emits only logs. -/
theorem C2_witness :
    onlyLogs (traceOf (script_rockNFT_1_1_deploy (fun _ => .undefined)
      (fun _ => .undefined)) okW) = true :=
  C2_network_guard script_rockNFT_1_1_deploy (by simp [allScripts])
    (fun _ => .undefined) (fun _ => .undefined) okW rfl

/-- C3: for every script parameter resolved through the shared
positional-else-environment-else-default precedence chain argOrEnv (as
every embedded script does, with its index, variable name and empty or
zero default): when the positional argument is absent or falsy, the
resolved value is the environment variable when that variable is set and
truthy, else the hard-coded default. -/
theorem C3_env_fallback :
    ∀ (argv : Nat → JsVal) (env : String → JsVal) (i : Nat)
      (name : String) (dflt : JsVal),
      truthy (argv i) = false →
      (truthy (env name) = true →
        argOrEnv argv env i name dflt = env name)
      ∧ (truthy (env name) = false →
        argOrEnv argv env i name dflt = dflt) := by
  intro argv env i name dflt h
  constructor <;> intro h2 <;> simp [argOrEnv, jsOr, h, h2]

/-- C3 witness: with the positional argument absent, ADMIN_ID set to
alice resolves to alice, and unset resolves to the empty default. -/
theorem C3_witness :
    argOrEnv (fun _ => .undefined)
      (fun n => if n == "ADMIN_ID" then .str "alice" else .undefined) 4
      "ADMIN_ID" (.str "") = .str "alice"
    ∧ argOrEnv (fun _ => .undefined) (fun _ => .undefined) 4 "ADMIN_ID"
      (.str "") = .str "" := by
  constructor
  · exact (C3_env_fallback (fun _ => .undefined)
      (fun n => if n == "ADMIN_ID" then .str "alice" else .undefined) 4
      "ADMIN_ID" (.str "") rfl).1 rfl
  · exact (C3_env_fallback (fun _ => .undefined) (fun _ => .undefined) 4
      "ADMIN_ID" (.str "") rfl).2 rfl

/-- C4: evaluation of the generic view invoker get at the failing input.
Called with method get_init_imo_fee (as the 1.5_get_init_imo_fee scripts
do), both kept implementations issue a get_admin call and never a
get_init_imo_fee call: the proxy and the issued method are hard-coded to
get_admin and the method argument is ignored, contradicting the spec,
whose intent the callers plainly share. -/
theorem C4_get_ignores_method :
    (hasCallTo "get_admin"
      (traceOf (EnvironmentNFT.get testnetConfig "get_init_imo_fee"
        (.str "c") (.str "s")) okW) = true
     ∧ hasCallTo "get_init_imo_fee"
      (traceOf (EnvironmentNFT.get testnetConfig "get_init_imo_fee"
        (.str "c") (.str "s")) okW) = false)
    ∧ (hasCallTo "get_admin"
      (traceOf (RockNFTCollectionHolder.get testnetConfig
        "get_init_imo_fee" (.str "c") (.str "s")) okW) = true
     ∧ hasCallTo "get_init_imo_fee"
      (traceOf (RockNFTCollectionHolder.get testnetConfig
        "get_init_imo_fee" (.str "c") (.str "s")) okW) = false)
    ∧ (hasCallTo "get_admin"
      (traceOf (script_rockNFT_1_5_get_init_imo_fee envTestnet
        (fun _ => .str "x")) okW) = true
     ∧ hasCallTo "get_init_imo_fee"
      (traceOf (script_rockNFT_1_5_get_init_imo_fee envTestnet
        (fun _ => .str "x")) okW) = false) :=
  ⟨⟨rfl, rfl⟩, ⟨rfl, rfl⟩, ⟨rfl, rfl⟩⟩

/-- C5 counterexample: init is an invoker method that issues a remote
contract call (new), and when that call throws the exception is not
caught inside init: it escalates out of the method. -/
theorem C5_counterexample :
    escalates (EnvironmentNFT.init (.str "c") (.str "acct") (.str "a")
      (.str "o") (.str "t") (.str "m")) (failCallW "new") = true
    ∧ hasCallTo "new"
      (traceOf (EnvironmentNFT.init (.str "c") (.str "acct") (.str "a")
        (.str "o") (.str "t") (.str "m")) (failCallW "new")) = true :=
  ⟨rfl, rfl⟩

/-- C5 amended: for every invoker method except init, once the method
has connected, no failure escalates out of the method under any world
(the try block around the remote call catches it), and on a world whose
remote call throws, the method resolves normally (returning undefined
for the view invoker) and logs the error; the one exception is init,
whose new-call failure propagates to its caller deploy, where the catch
logs it. -/
theorem C5_swallowed_errors :
    (∀ (cfg : Config) (m : String) (c s : JsVal) (w : W) (v : JsVal),
      w (.connect cfg) = .ok v →
      escalates (EnvironmentNFT.get cfg m c s) w = false)
    ∧ (∀ (cfg : Config) (m : String) (c s : JsVal) (w : W) (v : JsVal),
      w (.connect cfg) = .ok v →
      escalates (RockNFTCollectionHolder.get cfg m c s) w = false)
    ∧ (∀ (cfg : Config) (a b c : JsVal) (w : W) (v : JsVal),
      w (.connect cfg) = .ok v →
      escalates (EnvironmentNFT.setAdmin cfg a b c) w = false)
    ∧ (∀ (cfg : Config) (a b c : JsVal) (w : W) (v : JsVal),
      w (.connect cfg) = .ok v →
      escalates (EnvironmentNFT.changeOperator cfg a b c) w = false)
    ∧ (∀ (cfg : Config) (a b c : JsVal) (w : W) (v : JsVal),
      w (.connect cfg) = .ok v →
      escalates (EnvironmentNFT.changeTreasury cfg a b c) w = false)
    ∧ (∀ (cfg : Config) (a b c : JsVal) (w : W) (v : JsVal),
      w (.connect cfg) = .ok v →
      escalates (EnvironmentNFT.updateTokenPrice cfg a b c) w = false)
    ∧ (∀ (cfg : Config) (a b c : JsVal) (w : W) (v : JsVal),
      w (.connect cfg) = .ok v →
      escalates (EnvironmentNFT.updateTokenMetadata cfg a b c) w
        = false)
    ∧ (∀ (cfg : Config) (a b c d : JsVal) (w : W) (v : JsVal),
      w (.connect cfg) = .ok v →
      escalates (EnvironmentNFT.updateMintedTokenMetadata cfg a b c d) w
        = false)
    ∧ (∀ (cfg : Config) (a b c : JsVal) (w : W) (v : JsVal),
      w (.connect cfg) = .ok v →
      escalates (EnvironmentNFT.updateContractMetadata cfg a b c) w
        = false)
    ∧ (∀ (cfg : Config) (a b c d : JsVal) (w : W) (v : JsVal),
      w (.connect cfg) = .ok v →
      escalates (EnvironmentNFT.updateRoyalties cfg a b c d) w = false)
    ∧ (∀ (cfg : Config) (a b c d e : JsVal) (w : W) (v : JsVal),
      w (.connect cfg) = .ok v →
      escalates (RockNFTCollectionHolder.updateRoyalties cfg a b c d e)
        w = false)
    ∧ (∀ (cfg : Config) (a b c d e f g : JsVal) (w : W) (v : JsVal),
      w (.connect cfg) = .ok v →
      escalates (EnvironmentNFT.createNft cfg a b c d e f g) w = false)
    ∧ (∀ (cfg : Config) (a b c d e : JsVal) (w : W) (v : JsVal),
      w (.connect cfg) = .ok v →
      escalates (EnvironmentNFT.userMint cfg a b c d e) w = false)
    ∧ (∀ (cfg : Config) (a b c d e f g h : JsVal) (w : W) (v : JsVal),
      w (.connect cfg) = .ok v →
      escalates (RockNFTCollectionHolder.mintRock cfg a b c d e f g h) w
        = false)
    ∧ (∀ (cfg : Config) (a b c d e f g : JsVal) (w : W) (v : JsVal),
      w (.connect cfg) = .ok v →
      escalates (RockNFTCollectionHolder.initMetaverse cfg a b c d e f g)
        w = false)
    ∧ (∀ (cfg : Config) (a b c d : JsVal) (w : W) (v : JsVal),
      w (.connect cfg) = .ok v →
      escalates (RockNFTCollectionHolder.getZoneInfo cfg a b c d) w
        = false)
    ∧ resultOf (EnvironmentNFT.get testnetConfig "get_admin" (.str "c")
        (.str "s")) (failCallW "get_admin") = .ok .undefined
    ∧ hasLogStr "boom" (traceOf (EnvironmentNFT.get testnetConfig
        "get_admin" (.str "c") (.str "s")) (failCallW "get_admin"))
        = true
    ∧ resultOf (EnvironmentNFT.updateTokenPrice testnetConfig (.str "c")
        (.str "s") (.str "2")) (failCallW "update_token_price") = .ok ()
    ∧ hasLogStr "boom" (traceOf (EnvironmentNFT.updateTokenPrice
        testnetConfig (.str "c") (.str "s") (.str "2"))
        (failCallW "update_token_price")) = true
    ∧ resultOf (RockNFTCollectionHolder.mintRock testnetConfig
        (.str "s") (.str "c") (.str "m") (.num 1) (.num 2) (.str "r")
        (.str "tm") (.str "1")) (failCallW "mint_rock") = .ok ()
    ∧ hasLogStr "boom" (traceOf (RockNFTCollectionHolder.mintRock
        testnetConfig (.str "s") (.str "c") (.str "m") (.num 1)
        (.num 2) (.str "r") (.str "tm") (.str "1"))
        (failCallW "mint_rock")) = true
    ∧ escalates (EnvironmentNFT.deploy testnetConfig (.str "w")
        (.str "c") (.str "a") (.str "o") (.str "t") (.str "m") true)
        (failCallW "new") = false
    ∧ hasLogStr "boom" (traceOf (EnvironmentNFT.deploy testnetConfig
        (.str "w") (.str "c") (.str "a") (.str "o") (.str "t")
        (.str "m") true) (failCallW "new")) = true := by
  refine ⟨?_, ?_, ?_, ?_, ?_, ?_, ?_, ?_, ?_, ?_, ?_, ?_, ?_, ?_, ?_,
    ?_, rfl, rfl, rfl, rfl, rfl, rfl, rfl, rfl⟩
  · intro cfg m c s w v hconn
    unfold EnvironmentNFT.get
    rw [escalates_bind_callOp _ _ _ _ hconn]
    exact escalates_tryCatch_handler _ _ _ (fun e => rfl)
  · intro cfg m c s w v hconn
    unfold RockNFTCollectionHolder.get
    rw [escalates_bind_callOp _ _ _ _ hconn]
    exact escalates_tryCatch_handler _ _ _ (fun e => rfl)
  · intro cfg a b c w v hconn
    unfold EnvironmentNFT.setAdmin
    simp only [bind_eq_M_bind, pure_eq_M_pure,
      escalates_bind_callOp_match, hconn, escalates_bind_logMsg]
    exact escalates_tryCatch_handler _ _ _ (fun e => rfl)
  · intro cfg a b c w v hconn
    unfold EnvironmentNFT.changeOperator
    simp only [bind_eq_M_bind, pure_eq_M_pure,
      escalates_bind_callOp_match, hconn, escalates_bind_logMsg]
    exact escalates_tryCatch_handler _ _ _ (fun e => rfl)
  · intro cfg a b c w v hconn
    unfold EnvironmentNFT.changeTreasury
    simp only [bind_eq_M_bind, pure_eq_M_pure,
      escalates_bind_callOp_match, hconn, escalates_bind_logMsg]
    exact escalates_tryCatch_handler _ _ _ (fun e => rfl)
  · intro cfg a b c w v hconn
    unfold EnvironmentNFT.updateTokenPrice
    simp only [bind_eq_M_bind, pure_eq_M_pure,
      escalates_bind_callOp_match, hconn, escalates_bind_logMsg]
    exact escalates_tryCatch_handler _ _ _ (fun e => rfl)
  · intro cfg a b c w v hconn
    unfold EnvironmentNFT.updateTokenMetadata
    simp only [bind_eq_M_bind, pure_eq_M_pure,
      escalates_bind_callOp_match, hconn, escalates_bind_logMsg]
    exact escalates_tryCatch_handler _ _ _ (fun e => rfl)
  · intro cfg a b c d w v hconn
    unfold EnvironmentNFT.updateMintedTokenMetadata
    simp only [bind_eq_M_bind, pure_eq_M_pure,
      escalates_bind_callOp_match, hconn, escalates_bind_logMsg]
    exact escalates_tryCatch_handler _ _ _ (fun e => rfl)
  · intro cfg a b c w v hconn
    unfold EnvironmentNFT.updateContractMetadata
    simp only [bind_eq_M_bind, pure_eq_M_pure,
      escalates_bind_callOp_match, hconn, escalates_bind_logMsg]
    exact escalates_tryCatch_handler _ _ _ (fun e => rfl)
  · intro cfg a b c d w v hconn
    unfold EnvironmentNFT.updateRoyalties
    simp only [bind_eq_M_bind, pure_eq_M_pure,
      escalates_bind_callOp_match, hconn, escalates_bind_logMsg]
    exact escalates_tryCatch_handler _ _ _ (fun e => rfl)
  · intro cfg a b c d e w v hconn
    unfold RockNFTCollectionHolder.updateRoyalties
    simp only [bind_eq_M_bind, pure_eq_M_pure,
      escalates_bind_callOp_match, hconn, escalates_bind_logMsg]
    exact escalates_tryCatch_handler _ _ _ (fun e => rfl)
  · intro cfg a b c d e f g w v hconn
    unfold EnvironmentNFT.createNft
    simp only [bind_eq_M_bind, pure_eq_M_pure,
      escalates_bind_callOp_match, hconn, escalates_bind_logMsg]
    exact escalates_tryCatch_handler _ _ _ (fun e => rfl)
  · intro cfg a b c d e w v hconn
    unfold EnvironmentNFT.userMint
    simp only [bind_eq_M_bind, pure_eq_M_pure,
      escalates_bind_callOp_match, hconn, escalates_bind_logMsg]
    exact escalates_tryCatch_handler _ _ _ (fun e => rfl)
  · intro cfg a b c d e f g h w v hconn
    unfold RockNFTCollectionHolder.mintRock
    simp only [bind_eq_M_bind, pure_eq_M_pure,
      escalates_bind_callOp_match, hconn, escalates_bind_logMsg]
    exact escalates_tryCatch_handler _ _ _ (fun e => rfl)
  · intro cfg a b c d e f g w v hconn
    unfold RockNFTCollectionHolder.initMetaverse
    simp only [bind_eq_M_bind, pure_eq_M_pure,
      escalates_bind_callOp_match, hconn, escalates_bind_logMsg]
    exact escalates_tryCatch_handler _ _ _ (fun e => rfl)
  · intro cfg a b c d w v hconn
    unfold RockNFTCollectionHolder.getZoneInfo
    simp only [bind_eq_M_bind, pure_eq_M_pure,
      escalates_bind_callOp_match, hconn, escalates_bind_logMsg]
    exact escalates_tryCatch_handler _ _ _ (fun e => rfl)

/-- C5 witness: the view invoker under the all-resolving world does not
escalate. -/
theorem C5_witness :
    escalates (EnvironmentNFT.get testnetConfig "get_admin" (.str "c")
      (.str "s")) okW = false :=
  C5_swallowed_errors.1 testnetConfig "get_admin" (.str "c") (.str "s")
    okW .undefined rfl

/-- C6: createAccount, in both kept two-parameter implementations,
performs exactly, in order: the network connection, the load of the
funding account named by CREATOR_ACCOUNT_ID, the fresh keypair
generation, the funded create_account submission with the fixed gas
string, and the key-store write keyed by the network id and the new
account id, returning the submission result. -/
theorem C6_createAccount_sequence :
    (∀ (cfg : Config) (network : JsVal) (env : String → JsVal)
      (na amt : JsVal) (w : W) (v1 v2 kp fr sk : JsVal),
      w (.connect cfg) = .ok v1 →
      w (.loadAccount (env "CREATOR_ACCOUNT_ID")) = .ok v2 →
      w .genKeyPair = .ok kp →
      w (.functionCall network "create_account"
        (.obj [("new_account_id", na),
               ("new_public_key", publicKeyOf kp)])
        fixedGas (parseNearAmount amt)) = .ok fr →
      w (.setKey cfg.networkId na kp) = .ok sk →
      EnvironmentNFT.createAccount cfg network env na amt w =
        ([.connect cfg, .loadAccount (env "CREATOR_ACCOUNT_ID"),
          .genKeyPair,
          .functionCall network "create_account"
            (.obj [("new_account_id", na),
                   ("new_public_key", publicKeyOf kp)])
            fixedGas (parseNearAmount amt),
          .setKey cfg.networkId na kp], .ok fr))
    ∧ (∀ (cfg : Config) (network : JsVal) (env : String → JsVal)
      (na amt : JsVal) (w : W) (v1 v2 kp fr sk : JsVal),
      w (.connect cfg) = .ok v1 →
      w (.loadAccount (env "CREATOR_ACCOUNT_ID")) = .ok v2 →
      w .genKeyPair = .ok kp →
      w (.functionCall network "create_account"
        (.obj [("new_account_id", na),
               ("new_public_key", publicKeyOf kp)])
        fixedGas (parseNearAmount amt)) = .ok fr →
      w (.setKey cfg.networkId na kp) = .ok sk →
      RockNFTCollectionHolder.createAccount cfg network env na amt w =
        ([.connect cfg, .loadAccount (env "CREATOR_ACCOUNT_ID"),
          .genKeyPair,
          .functionCall network "create_account"
            (.obj [("new_account_id", na),
                   ("new_public_key", publicKeyOf kp)])
            fixedGas (parseNearAmount amt),
          .setKey cfg.networkId na kp], .ok fr)) := by
  constructor
  · intro cfg network env na amt w v1 v2 kp fr sk h1 h2 h3 h4 h5
    simp [EnvironmentNFT.createAccount, bind_eq_M_bind, pure_eq_M_pure,
      bind_callOp_apply, h1, h2, h3, h4, h5, M.pure]
  · intro cfg network env na amt w v1 v2 kp fr sk h1 h2 h3 h4 h5
    simp [RockNFTCollectionHolder.createAccount, bind_eq_M_bind,
      pure_eq_M_pure, bind_callOp_apply, h1, h2, h3, h4, h5, M.pure]

/-- C6 witness: the sequence under the all-resolving world. -/
theorem C6_witness :
    EnvironmentNFT.createAccount testnetConfig (.str "testnet")
      (fun _ => .str "creator") (.str "newacct") (.str "10") okW =
      ([.connect testnetConfig, .loadAccount (.str "creator"),
        .genKeyPair,
        .functionCall (.str "testnet") "create_account"
          (.obj [("new_account_id", .str "newacct"),
                 ("new_public_key", publicKeyOf .undefined)])
          fixedGas (parseNearAmount (.str "10")),
        .setKey "testnet" (.str "newacct") .undefined], .ok .undefined) :=
  C6_createAccount_sequence.1 testnetConfig (.str "testnet")
    (fun _ => .str "creator") (.str "newacct") (.str "10") okW .undefined
    .undefined .undefined .undefined .undefined rfl rfl rfl rfl rfl

/-- C7 counterexample: an error while establishing the connection, or
while loading the target account, escalates out of deleteAccount to its
caller, contradicting the claim that any error during the operation is
caught inside. -/
theorem C7_counterexample :
    escalates (EnvironmentNFT.deleteAccount testnetConfig
      (fun _ => .undefined) (.str "victim")) failConnectW = true
    ∧ escalates (EnvironmentNFT.deleteAccount testnetConfig
      (fun _ => .undefined) (.str "victim")) failLoadW = true
    ∧ escalates (RockNFTCollectionHolder.deleteAccount testnetConfig
      (fun _ => .undefined) (.str "victim")) failConnectW = true :=
  ⟨rfl, rfl, rfl⟩

/-- C7 amended: in deleteAccount only the on-chain deletion call sits in
the try block: once the connection and the target account load have
resolved, no failure escalates under any world, and a throwing deletion
call is logged while the method resolves normally; errors from the
connection or the account load, which sit before the try, propagate to
the caller. -/
theorem C7_deleteAccount_errors :
    (∀ (cfg : Config) (env : String → JsVal) (a : JsVal) (w : W)
      (v1 v2 : JsVal),
      w (.connect cfg) = .ok v1 →
      w (.loadAccount a) = .ok v2 →
      escalates (EnvironmentNFT.deleteAccount cfg env a) w = false)
    ∧ (∀ (cfg : Config) (env : String → JsVal) (a : JsVal) (w : W)
      (v1 v2 : JsVal),
      w (.connect cfg) = .ok v1 →
      w (.loadAccount a) = .ok v2 →
      escalates (RockNFTCollectionHolder.deleteAccount cfg env a) w
        = false)
    ∧ resultOf (EnvironmentNFT.deleteAccount testnetConfig
        (fun _ => .str "creator") (.str "victim")) failDelW = .ok ()
    ∧ hasLogStr "delfail" (traceOf (EnvironmentNFT.deleteAccount
        testnetConfig (fun _ => .str "creator") (.str "victim"))
        failDelW) = true
    ∧ resultOf (RockNFTCollectionHolder.deleteAccount testnetConfig
        (fun _ => .str "creator") (.str "victim")) failDelW = .ok ()
    ∧ hasLogStr "delfail" (traceOf
        (RockNFTCollectionHolder.deleteAccount testnetConfig
          (fun _ => .str "creator") (.str "victim")) failDelW) = true
    ∧ escalates (EnvironmentNFT.deleteAccount testnetConfig
        (fun _ => .str "creator") (.str "victim")) failConnectW
        = true := by
  refine ⟨?_, ?_, rfl, rfl, rfl, rfl, rfl⟩
  · intro cfg env a w v1 v2 h1 h2
    unfold EnvironmentNFT.deleteAccount
    simp only [bind_eq_M_bind, pure_eq_M_pure,
      escalates_bind_callOp_match, h1, h2]
    exact escalates_tryCatch_handler _ _ _ (fun e => rfl)
  · intro cfg env a w v1 v2 h1 h2
    unfold RockNFTCollectionHolder.deleteAccount
    simp only [bind_eq_M_bind, pure_eq_M_pure,
      escalates_bind_callOp_match, h1, h2]
    exact escalates_tryCatch_handler _ _ _ (fun e => rfl)

/-- C7 witness: deleteAccount under the all-resolving world does not
escalate. -/
theorem C7_witness :
    escalates (EnvironmentNFT.deleteAccount testnetConfig
      (fun _ => .str "creator") (.str "victim")) okW = false :=
  C7_deleteAccount_errors.1 testnetConfig (fun _ => .str "creator")
    (.str "victim") okW .undefined .undefined rfl rfl

/-- C9: in both kept createAccount implementations the key-store write
comes only after the create_account submission has resolved: when the
submission throws, the run contains no key-store write at all and the
error escalates; and on the success path the write is the final event,
after the submission. -/
theorem C9_key_after_submission :
    (∀ (cfg : Config) (network : JsVal) (env : String → JsVal)
      (na amt : JsVal) (w : W) (v1 v2 kp : JsVal) (err : String),
      w (.connect cfg) = .ok v1 →
      w (.loadAccount (env "CREATOR_ACCOUNT_ID")) = .ok v2 →
      w .genKeyPair = .ok kp →
      w (.functionCall network "create_account"
        (.obj [("new_account_id", na),
               ("new_public_key", publicKeyOf kp)])
        fixedGas (parseNearAmount amt)) = .error err →
      ((traceOf (EnvironmentNFT.createAccount cfg network env na amt) w
        ).all (fun e => !e.isSetKey) = true
       ∧ escalates (EnvironmentNFT.createAccount cfg network env na amt)
          w = true))
    ∧ (∀ (cfg : Config) (network : JsVal) (env : String → JsVal)
      (na amt : JsVal) (w : W) (v1 v2 kp : JsVal) (err : String),
      w (.connect cfg) = .ok v1 →
      w (.loadAccount (env "CREATOR_ACCOUNT_ID")) = .ok v2 →
      w .genKeyPair = .ok kp →
      w (.functionCall network "create_account"
        (.obj [("new_account_id", na),
               ("new_public_key", publicKeyOf kp)])
        fixedGas (parseNearAmount amt)) = .error err →
      ((traceOf (RockNFTCollectionHolder.createAccount cfg network env
          na amt) w).all (fun e => !e.isSetKey) = true
       ∧ escalates (RockNFTCollectionHolder.createAccount cfg network
          env na amt) w = true))
    ∧ (∀ (cfg : Config) (network : JsVal) (env : String → JsVal)
      (na amt : JsVal) (w : W) (v1 v2 kp fr sk : JsVal),
      w (.connect cfg) = .ok v1 →
      w (.loadAccount (env "CREATOR_ACCOUNT_ID")) = .ok v2 →
      w .genKeyPair = .ok kp →
      w (.functionCall network "create_account"
        (.obj [("new_account_id", na),
               ("new_public_key", publicKeyOf kp)])
        fixedGas (parseNearAmount amt)) = .ok fr →
      w (.setKey cfg.networkId na kp) = .ok sk →
      traceOf (EnvironmentNFT.createAccount cfg network env na amt) w =
        [.connect cfg, .loadAccount (env "CREATOR_ACCOUNT_ID"),
         .genKeyPair,
         .functionCall network "create_account"
           (.obj [("new_account_id", na),
                  ("new_public_key", publicKeyOf kp)])
           fixedGas (parseNearAmount amt),
         .setKey cfg.networkId na kp]) := by
  refine ⟨?_, ?_, ?_⟩
  · intro cfg network env na amt w v1 v2 kp err h1 h2 h3 h4
    constructor
    · simp [EnvironmentNFT.createAccount, traceOf, bind_eq_M_bind,
        pure_eq_M_pure, bind_callOp_apply, h1, h2, h3, h4, M.pure,
        Ev.isSetKey]
    · simp [EnvironmentNFT.createAccount, escalates, resultOf,
        bind_eq_M_bind, pure_eq_M_pure, bind_callOp_apply, h1, h2, h3,
        h4, M.pure]
  · intro cfg network env na amt w v1 v2 kp err h1 h2 h3 h4
    constructor
    · simp [RockNFTCollectionHolder.createAccount, traceOf,
        bind_eq_M_bind, pure_eq_M_pure, bind_callOp_apply, h1, h2, h3,
        h4, M.pure, Ev.isSetKey]
    · simp [RockNFTCollectionHolder.createAccount, escalates, resultOf,
        bind_eq_M_bind, pure_eq_M_pure, bind_callOp_apply, h1, h2, h3,
        h4, M.pure]
  · intro cfg network env na amt w v1 v2 kp fr sk h1 h2 h3 h4 h5
    simp [EnvironmentNFT.createAccount, traceOf, bind_eq_M_bind,
      pure_eq_M_pure, bind_callOp_apply, h1, h2, h3, h4, h5, M.pure]

/-- C9 witness: under the world whose create_account submission throws,
the run writes no key and the error escalates. -/
theorem C9_witness :
    (traceOf (EnvironmentNFT.createAccount testnetConfig
      (.str "testnet") (fun _ => .str "creator") (.str "newacct")
      (.str "10")) failFnCallW).all (fun e => !e.isSetKey) = true
    ∧ escalates (EnvironmentNFT.createAccount testnetConfig
      (.str "testnet") (fun _ => .str "creator") (.str "newacct")
      (.str "10")) failFnCallW = true :=
  C9_key_after_submission.1 testnetConfig (.str "testnet")
    (fun _ => .str "creator") (.str "newacct") (.str "10") failFnCallW
    .undefined .undefined .undefined "fnfail" rfl rfl rfl rfl

/-- C8 counterexample: the mint script parses its zone index with
parseInt and no radix argument, and on the input 0x10 that is
hexadecimal, not base-10: base-10 parsing of 0x10 gives 0, the script
passes 16 downstream in the issued mint_rock call. -/
theorem C8_counterexample :
    parseIntJs none (.str "0x10") = .num 16
    ∧ parseIntJs (some 10) (.str "0x10") = .num 0
    ∧ callArgsOf "mint_rock"
        (traceOf (script_rockNFT_1_4_mint_rock envTestnet argvMintHex)
          okW) =
      some (.obj [("metaverse_id", .str "m"), ("zone_index", .num 16),
                  ("rock_index", .nan), ("receiver_id", .str "x"),
                  ("token_metadata", .undefined)]) :=
  ⟨rfl, rfl, rfl⟩

/-- C8 amended: numeric CLI parameters are parsed with JavaScript
parseInt; some call sites pass radix 10 and others omit the radix, which
is base-10 except for 0x-prefixed input (see the counterexample); a
malformed input yields the NaN sentinel, which is passed through to the
downstream call uncorrected and without halting the script.  Shown here:
default parsing is base-10 on plain digits and NaN on malformed input at
both kinds of call sites, the mint script passes zone_index NaN
downstream and still resolves, and the deploy script passes
rock_purchase_fee NaN into the issued initialization call. -/
theorem C8_parseInt_nan_passthrough :
    parseIntJs none (.str "123") = .num 123
    ∧ parseIntJs none (.str "abc") = .nan
    ∧ parseIntJs (some 10) (.str "abc") = .nan
    ∧ callArgsOf "mint_rock"
        (traceOf (script_rockNFT_1_4_mint_rock envTestnet argvMintBad)
          okW) =
      some (.obj [("metaverse_id", .str "m"), ("zone_index", .nan),
                  ("rock_index", .nan), ("receiver_id", .str "x"),
                  ("token_metadata", .undefined)])
    ∧ Except.isOkB (resultOf
        (script_rockNFT_1_4_mint_rock envTestnet argvMintBad) okW)
        = true
    ∧ callArgsOf "new"
        (traceOf (script_rockNFT_1_1_deploy envTestnet argvDeployBad)
          okW) =
      some (.obj [("admin_id", .str "x"), ("operator_id", .str "x"),
                  ("treasury_id", .str "x"), ("init_imo_fee", .str "x"),
                  ("rock_purchase_fee", .nan), ("metadata", .undefined)])
    ∧ Except.isOkB (resultOf
        (script_rockNFT_1_1_deploy envTestnet argvDeployBad) okW)
        = true :=
  ⟨rfl, rfl, rfl, rfl, rfl, rfl, rfl⟩
